import Mathlib

/-!
Financial Freedom Outcomes Calculator: projection engine.

Shallow embedding of `src/js/calculator.js`: `calculatePlan1`, `calculatePlan2`,
`generateComparisonTable`, `gatherInputs`, `validateInputs` and `calculate`.

Numbers are exact rationals (`ℚ`) in the simulators and the comparison table: the
statements about them are about the arithmetic the code writes down, not about
IEEE-754 rounding.  Input gathering and validation carry more of the JavaScript number
type, because the program's visible answer depends on it.  `parseFloat` returns the
nearest double, and the comparison behind the lapse-risk warning of `validateInputs`
is evaluated in double arithmetic (every operation rounded to 53 bits, ties to even;
overflow and underflow are not modelled).  The `taxRate` that `gatherInputs` returns
can be `NaN`, and `calculate` runs both simulators on it: the results it stores hold
`NaN` in every field computed from the tax rate.
`timeHorizon` and `currentAge` come out of `parseInt` and are integers (`Int`); the loop
`for (let year = 1; year <= timeHorizon; year++)` therefore runs
`timeHorizon.toNat` times (no iteration when `timeHorizon ≤ 0`).
`contributionTiming` is the raw string of the select box and is only ever
compared with `'start'`.
-/

namespace Freedom

/-! ## Data model -/

/-- The record returned by `gatherInputs` and consumed by both simulators. -/
structure Inputs where
  currentAge : Int
  timeHorizon : Int
  annualContribution : ℚ
  contributionTiming : String
  directCAGR : ℚ
  taxRate : ℚ
  perpetualRate : ℚ
  cvGrowthRate : ℚ
  borrowPercent : ℚ
  loanRate : ℚ
  deathBenefit : ℚ

/-- One entry of Plan 1's `yearlyData`. -/
structure Plan1Year where
  year : Int
  contribution : ℚ
  portfolioValue : ℚ

/-- Mutable locals of `calculatePlan1`'s year loop. -/
structure Plan1State where
  portfolioValue : ℚ
  yearlyData : List Plan1Year

/-- The object returned by `calculatePlan1`. -/
structure Plan1Result where
  yearlyData : List Plan1Year
  portfolioValue : ℚ
  totalContributed : ℚ
  gains : ℚ
  taxOnGains : ℚ
  afterTaxCapital : ℚ
  annuitizedAmount : ℚ
  liquidityFund : ℚ
  perpetualIncome : ℚ
  liquidity : ℚ
  netLegacy : ℚ

/-- One entry of Plan 2's `yearlyData`. -/
structure Plan2Year where
  year : Int
  funding : ℚ
  borrowed : ℚ
  loanBalance : ℚ
  interestPayment : ℚ
  cumulativeInterest : ℚ
  epigValue : ℚ
  cashValue : ℚ

/-- Mutable locals of `calculatePlan2`'s year loop. -/
structure Plan2State where
  cashValue : ℚ
  epigValue : ℚ
  loanBalance : ℚ
  cumulativeInterest : ℚ
  yearlyData : List Plan2Year

/-- The object returned by `calculatePlan2`. -/
structure Plan2Result where
  yearlyData : List Plan2Year
  cashValue : ℚ
  epigValue : ℚ
  epigAfterInterest : ℚ
  epigAfterTax : ℚ
  cumulativeInterest : ℚ
  taxOnEPIGGains : ℚ
  loanBalance : ℚ
  totalPremiumsPaid : ℚ
  epigGains : ℚ
  netEPIGAfterLoanPayoff : ℚ
  annuitizableAmount : ℚ
  totalLiquidity : ℚ
  perpetualIncome : ℚ
  grossDeathBenefit : ℚ
  netDeathBenefit : ℚ
  netLegacy : ℚ

/-! ## Plan 1: direct invest -/

/-- Body of the `for` loop of `calculatePlan1` (lines 273-288), run for `year`. -/
def plan1Body (inputs : Inputs) (year : Int) (st : Plan1State) : Plan1State :=
  let portfolioValue :=
    if inputs.contributionTiming = "start" then
      (st.portfolioValue + inputs.annualContribution) * (1 + inputs.directCAGR / 100)
    else
      st.portfolioValue * (1 + inputs.directCAGR / 100) + inputs.annualContribution
  { portfolioValue := portfolioValue
    yearlyData := st.yearlyData ++
      [{ year := year, contribution := inputs.annualContribution,
         portfolioValue := portfolioValue }] }

/-- State of `calculatePlan1` after the iterations `year = 1, …, k` of its loop. -/
def plan1Loop (inputs : Inputs) : Nat → Plan1State
  | 0 => { portfolioValue := 0, yearlyData := [] }
  | k + 1 => plan1Body inputs ((k + 1 : Nat) : Int) (plan1Loop inputs k)

/-- The function `calculatePlan1` (lines 267-325). -/
def calculatePlan1 (inputs : Inputs) : Plan1Result :=
  let st := plan1Loop inputs inputs.timeHorizon.toNat
  let portfolioValue := st.portfolioValue
  let totalContributed := inputs.annualContribution * (inputs.timeHorizon : ℚ)
  let gains := portfolioValue - totalContributed
  let taxOnGains := gains * (inputs.taxRate / 100)
  let afterTaxCapital := portfolioValue - taxOnGains
  let annuitizedAmount := afterTaxCapital * 0.70
  let liquidityFund := afterTaxCapital * 0.30
  let perpetualIncome := annuitizedAmount * (inputs.perpetualRate / 100)
  let liquidity := liquidityFund
  let netLegacy := 0
  { yearlyData := st.yearlyData
    portfolioValue := portfolioValue
    totalContributed := totalContributed
    gains := gains
    taxOnGains := taxOnGains
    afterTaxCapital := afterTaxCapital
    annuitizedAmount := annuitizedAmount
    liquidityFund := liquidityFund
    perpetualIncome := perpetualIncome
    liquidity := liquidity
    netLegacy := netLegacy }

/-! ## Plan 2: whole life + EPIG borrowing -/

/-- Body of the `for` loop of `calculatePlan2` (lines 343-385), run for `year`. -/
def plan2Body (inputs : Inputs) (year : Int) (st : Plan2State) : Plan2State :=
  let premium := inputs.annualContribution
  let cashValue :=
    if inputs.contributionTiming = "start" then
      (st.cashValue + premium) * (1 + inputs.cvGrowthRate / 100)
    else
      st.cashValue * (1 + inputs.cvGrowthRate / 100) + premium
  let borrowAmount := premium * (inputs.borrowPercent / 100)
  let interestPayment := st.loanBalance * (inputs.loanRate / 100)
  let cumulativeInterest := st.cumulativeInterest + interestPayment
  let epigValue :=
    if inputs.contributionTiming = "start" then
      (st.epigValue + borrowAmount) * (1 + inputs.directCAGR / 100)
    else
      st.epigValue * (1 + inputs.directCAGR / 100) + borrowAmount
  let loanBalance := st.loanBalance + borrowAmount
  { cashValue := cashValue
    epigValue := epigValue
    loanBalance := loanBalance
    cumulativeInterest := cumulativeInterest
    yearlyData := st.yearlyData ++
      [{ year := year, funding := premium, borrowed := borrowAmount,
         loanBalance := loanBalance, interestPayment := interestPayment,
         cumulativeInterest := cumulativeInterest, epigValue := epigValue,
         cashValue := cashValue }] }

/-- State of `calculatePlan2` after the iterations `year = 1, …, k` of its loop. -/
def plan2Loop (inputs : Inputs) : Nat → Plan2State
  | 0 => { cashValue := 0, epigValue := 0, loanBalance := 0, cumulativeInterest := 0,
           yearlyData := [] }
  | k + 1 => plan2Body inputs ((k + 1 : Nat) : Int) (plan2Loop inputs k)

/-- The function `calculatePlan2` (lines 331-441). -/
def calculatePlan2 (inputs : Inputs) : Plan2Result :=
  let st := plan2Loop inputs inputs.timeHorizon.toNat
  let cashValue := st.cashValue
  let epigValue := st.epigValue
  let loanBalance := st.loanBalance
  let cumulativeInterest := st.cumulativeInterest
  let totalPremiumsPaid := inputs.annualContribution * (inputs.timeHorizon : ℚ)
  let epigAfterInterest := epigValue - cumulativeInterest
  let totalBorrowed :=
    inputs.annualContribution * (inputs.timeHorizon : ℚ) * (inputs.borrowPercent / 100)
  let epigGains := epigAfterInterest - totalBorrowed
  let taxOnEPIGGains := epigGains * (inputs.taxRate / 100)
  let epigAfterTax := epigAfterInterest - taxOnEPIGGains
  let netEPIGAfterLoanPayoff := max 0 (epigAfterTax - loanBalance)
  let annuitizableAmount := netEPIGAfterLoanPayoff
  let perpetualIncome := annuitizableAmount * (inputs.perpetualRate / 100)
  let totalLiquidity := cashValue
  let grossDeathBenefit := inputs.deathBenefit
  let netDeathBenefit := inputs.deathBenefit
  let netLegacy := netDeathBenefit - totalPremiumsPaid
  { yearlyData := st.yearlyData
    cashValue := cashValue
    epigValue := epigValue
    epigAfterInterest := epigAfterInterest
    epigAfterTax := epigAfterTax
    cumulativeInterest := cumulativeInterest
    taxOnEPIGGains := taxOnEPIGGains
    loanBalance := loanBalance
    totalPremiumsPaid := totalPremiumsPaid
    epigGains := epigGains
    netEPIGAfterLoanPayoff := netEPIGAfterLoanPayoff
    annuitizableAmount := annuitizableAmount
    totalLiquidity := totalLiquidity
    perpetualIncome := perpetualIncome
    grossDeathBenefit := grossDeathBenefit
    netDeathBenefit := netDeathBenefit
    netLegacy := netLegacy }

/-- The documented defaults: the values `gatherInputs` falls back to
(lines 127, 139, 147-161). -/
def defaultInputs : Inputs :=
  { currentAge := 51
    timeHorizon := 10
    annualContribution := 50000
    contributionTiming := "end"
    directCAGR := 20
    taxRate := 25
    perpetualRate := 7
    cvGrowthRate := 4
    borrowPercent := 90
    loanRate := 6
    deathBenefit := 750000 }

/-- Input bounds of the data model: every rate and amount is non-negative and
the funding period lasts at least one year. -/
def ValidInputs (inputs : Inputs) : Prop :=
  0 ≤ inputs.currentAge ∧ 1 ≤ inputs.timeHorizon ∧ 0 ≤ inputs.annualContribution ∧
  0 ≤ inputs.directCAGR ∧ 0 ≤ inputs.taxRate ∧ 0 ≤ inputs.perpetualRate ∧
  0 ≤ inputs.cvGrowthRate ∧ 0 ≤ inputs.borrowPercent ∧ 0 ≤ inputs.loanRate ∧
  0 ≤ inputs.deathBenefit

instance (inputs : Inputs) : Decidable (ValidInputs inputs) := by
  unfold ValidInputs; infer_instance

/-- Value after `k` years of a unit deposit per year compounding by the factor `g`,
with the deposit made before (`'start'`) or after (anything else) the year's growth:
the recurrence both simulators run on each of their balances. -/
def growthSum (timing : String) (g : ℚ) : Nat → ℚ
  | 0 => 0
  | k + 1 =>
    if timing = "start" then (growthSum timing g k + 1) * g
    else growthSum timing g k * g + 1

/-- Plan 1's afterTaxCapital per unit of annualContribution: with `S` the growth sum
at `directCAGR` over the funding years and `n` their number, `S - (S - n) * taxRate/100`. -/
def plan1CapitalFactor (inputs : Inputs) : ℚ :=
  growthSum inputs.contributionTiming (1 + inputs.directCAGR / 100) inputs.timeHorizon.toNat -
    (growthSum inputs.contributionTiming (1 + inputs.directCAGR / 100)
        inputs.timeHorizon.toNat - (inputs.timeHorizon.toNat : ℚ)) * (inputs.taxRate / 100)

/-- Plan 2's `epigAfterTax - loanBalance` per unit of annualContribution: the after-tax
gain of the leveraged portfolio net of interest, for a premium of 1. -/
def plan2NetFactor (inputs : Inputs) : ℚ :=
  inputs.borrowPercent / 100 *
    (growthSum inputs.contributionTiming (1 + inputs.directCAGR / 100)
        inputs.timeHorizon.toNat -
      inputs.loanRate / 100 *
        ((inputs.timeHorizon.toNat : ℚ) * ((inputs.timeHorizon.toNat : ℚ) - 1) / 2) -
      (inputs.timeHorizon.toNat : ℚ)) *
    (1 - inputs.taxRate / 100)

/-- The same input with another annualContribution: every other field is kept. -/
def withContribution (inputs : Inputs) (a : ℚ) : Inputs :=
  { inputs with annualContribution := a }

/-- The documented defaults with a 5 % return on direct investment, below the 6 % loan
rate. -/
def lowReturnInputs : Inputs :=
  { defaultInputs with directCAGR := 5 }

/-- The documented defaults with a perpetualRate of 0. -/
def zeroPayoutInputs : Inputs :=
  { defaultInputs with perpetualRate := 0 }

/-- The documented defaults with a (custom) taxRate of 200. -/
def highTaxInputs : Inputs :=
  { defaultInputs with taxRate := 200 }

/-! ## Long-term comparison table -/

/-- One entry of the array `comparisons` built by `generateComparisonTable`. -/
structure ComparisonRow where
  year : Int
  age : Int
  plan1Income : ℚ
  plan1Liquidity : ℚ
  plan1Legacy : ℚ
  plan2Income : ℚ
  plan2LiquidityAlive : ℚ
  plan2LegacyAtDeath : ℚ
  plan2DeathBenefit : ℚ
  plan2CashValue : ℚ
  plan2NetEPIG : ℚ

/-- The constant `plan1BondRate` (line 738). -/
def plan1BondRate : ℚ := 5

/-- The constant `plan2CashValueRate_0_10` (line 744). -/
def plan2CashValueRate_0_10 : ℚ := 6.88

/-- The constant `plan2CashValueRate_10_20` (line 745). -/
def plan2CashValueRate_10_20 : ℚ := 5.24

/-- The constant `plan2CashValueRate_20_plus` (line 746). -/
def plan2CashValueRate_20_plus : ℚ := 4.61

/-- The constant `plan2DeathBenefitRate_0_10` (line 748). -/
def plan2DeathBenefitRate_0_10 : ℚ := 3.00

/-- The constant `plan2DeathBenefitRate_10_20` (line 749). -/
def plan2DeathBenefitRate_10_20 : ℚ := 2.76

/-- The constant `plan2DeathBenefitRate_20_plus` (line 750). -/
def plan2DeathBenefitRate_20_plus : ℚ := 2.93

/-- The array `projectionYears` (line 754). -/
def projectionYears : List Nat := [0, 10, 20, 30, 40]

/-- The object pushed by the `forEach` callback of `generateComparisonTable`
(lines 757-828) for the offset `years`.  `Math.pow` is only applied to natural
exponents: `years - 10` and `years - 20` are taken in branches where they are positive. -/
def comparisonRow (plan1 : Plan1Result) (plan2 : Plan2Result) (inputs : Inputs)
    (years : Nat) : ComparisonRow :=
  let plan1PerpetualIncome := plan1.perpetualIncome
  let plan1LiquidityStart := plan1.liquidity
  let plan2PerpetualIncome := plan2.perpetualIncome
  let plan2CashValueStart := plan2.cashValue
  let plan2NetEPIGStart := plan2.netEPIGAfterLoanPayoff
  let plan2DeathBenefitStart := plan2.netDeathBenefit
  let totalYears := inputs.timeHorizon + (years : Int)
  let ageAtYear := inputs.currentAge + totalYears
  let plan1AfterTaxBondRate := plan1BondRate * (1 - inputs.taxRate / 100)
  let plan1Liquidity := plan1LiquidityStart * (1 + plan1AfterTaxBondRate / 100) ^ years
  let plan2CashValue :=
    if years = 0 then
      plan2CashValueStart
    else if years ≤ 10 then
      plan2CashValueStart * (1 + plan2CashValueRate_0_10 / 100) ^ years
    else if years ≤ 20 then
      let valueAt10 := plan2CashValueStart * (1 + plan2CashValueRate_0_10 / 100) ^ 10
      valueAt10 * (1 + plan2CashValueRate_10_20 / 100) ^ (years - 10)
    else
      let valueAt10 := plan2CashValueStart * (1 + plan2CashValueRate_0_10 / 100) ^ 10
      let valueAt20 := valueAt10 * (1 + plan2CashValueRate_10_20 / 100) ^ 10
      valueAt20 * (1 + plan2CashValueRate_20_plus / 100) ^ (years - 20)
  let plan2NetEPIG := plan2NetEPIGStart * (1 + plan1AfterTaxBondRate / 100) ^ years
  let plan2LiquidityAlive := plan2CashValue
  let plan2DeathBenefit :=
    if years = 0 then
      plan2DeathBenefitStart
    else if years ≤ 10 then
      plan2DeathBenefitStart * (1 + plan2DeathBenefitRate_0_10 / 100) ^ years
    else if years ≤ 20 then
      let valueAt10 := plan2DeathBenefitStart * (1 + plan2DeathBenefitRate_0_10 / 100) ^ 10
      valueAt10 * (1 + plan2DeathBenefitRate_10_20 / 100) ^ (years - 10)
    else
      let valueAt10 := plan2DeathBenefitStart * (1 + plan2DeathBenefitRate_0_10 / 100) ^ 10
      let valueAt20 := valueAt10 * (1 + plan2DeathBenefitRate_10_20 / 100) ^ 10
      valueAt20 * (1 + plan2DeathBenefitRate_20_plus / 100) ^ (years - 20)
  let plan2LegacyAtDeath := plan2DeathBenefit + plan2NetEPIG
  { year := totalYears
    age := ageAtYear
    plan1Income := plan1PerpetualIncome
    plan1Liquidity := plan1Liquidity
    plan1Legacy := 0
    plan2Income := plan2PerpetualIncome
    plan2LiquidityAlive := plan2LiquidityAlive
    plan2LegacyAtDeath := plan2LegacyAtDeath
    plan2DeathBenefit := plan2DeathBenefit
    plan2CashValue := plan2CashValue
    plan2NetEPIG := plan2NetEPIG }

/-- The function `generateComparisonTable` (lines 725-832): the value is the array
`comparisons` it hands to `displayComparisonTable`, one row pushed per entry of
`projectionYears`, in order. -/
def generateComparisonTable (plan1 : Plan1Result) (plan2 : Plan2Result)
    (inputs : Inputs) : List ComparisonRow :=
  projectionYears.foldl
    (fun comparisons years => comparisons ++ [comparisonRow plan1 plan2 inputs years]) []

/-- The documented defaults with every field that `totalLiquidity` should ignore
changed: borrowPercent, loanRate, directCAGR, taxRate, perpetualRate, deathBenefit. -/
def otherLoanInputs : Inputs :=
  { defaultInputs with
    borrowPercent := 50, loanRate := 9, directCAGR := 12, taxRate := 30,
    perpetualRate := 4, deathBenefit := 1000000 }

/-! ## Double arithmetic

The JavaScript operators on numbers return the exact result rounded to the nearest
double, ties to the even mantissa.  The model keeps 53 significant bits with an
unbounded exponent: overflow to `Infinity` and underflow are outside it. -/

/-- Round to the nearest integer, a tie going to the even one. -/
def roundHalfEven (s : ℚ) : Int :=
  let lower : Int := ⌊s⌋
  if s - lower < 1 / 2 then lower
  else if 1 / 2 < s - lower then lower + 1
  else if lower % 2 = 0 then lower else lower + 1

/-- Round to the nearest number with a 53-bit mantissa: `x` is scaled by the power of
two that brings it into `[2^52, 2^53)`, rounded to an integer and scaled back. -/
def roundToDouble (x : ℚ) : ℚ :=
  if x = 0 then 0
  else
    let e : Int := Int.log 2 |x| - 52
    (if x < 0 then -1 else 1) * ((roundHalfEven (|x| / (2 : ℚ) ^ e) : ℚ) * (2 : ℚ) ^ e)

/-- The operator `*` on two doubles. -/
def jsMul (x y : ℚ) : ℚ := roundToDouble (x * y)

/-- The operator `/` on two doubles. -/
def jsDiv (x y : ℚ) : ℚ := roundToDouble (x / y)

/-- The operator `+` on two doubles. -/
def jsAdd (x y : ℚ) : ℚ := roundToDouble (x + y)

/-! ## Input gathering

`gatherInputs` reads the form through `document.getElementById`.  The form is modelled
by the text of each element (`none` when the element is missing).  The built-ins
`parseInt` and `parseFloat` are modelled on decimal (and, for `parseInt`, hexadecimal)
text; `none` stands for `NaN`.  `parseFloat` returns the double nearest to the decimal
value.  Outside the model: text spelling `Infinity` (it counts as no number), values
beyond the range of a double (no overflow or underflow), and integers of `parseInt`
beyond 2^53 (kept exactly). -/

/-- The text of every element `gatherInputs` looks up, by element id; `none` when
`document.getElementById` finds no such element. -/
structure FormState where
  currentAge : Option String
  timeHorizon : Option String
  annualContribution : Option String
  contributionTiming : Option String
  directCAGR : Option String
  taxRate : Option String
  customTaxRate : Option String
  perpetualRate : Option String
  cvGrowthRate : Option String
  borrowPercent : Option String
  loanRate : Option String
  deathBenefit : Option String

/-- The object returned by `gatherInputs`.  Every field but `taxRate` goes through
`|| default` and is a number; `taxRate` can be `NaN` (`none`). -/
structure GatheredInputs where
  currentAge : Int
  timeHorizon : Int
  annualContribution : ℚ
  contributionTiming : String
  directCAGR : ℚ
  taxRate : Option ℚ
  perpetualRate : ℚ
  cvGrowthRate : ℚ
  borrowPercent : ℚ
  loanRate : ℚ
  deathBenefit : ℚ

/-- White space that `parseInt` and `parseFloat` skip at the start of the text. -/
def isStrWhiteSpaceChar (c : Char) : Bool :=
  c.toNat == 9 || c.toNat == 10 || c.toNat == 11 || c.toNat == 12 || c.toNat == 13 ||
  c.toNat == 32 || c.toNat == 160 || c.toNat == 5760 ||
  (8192 ≤ c.toNat && c.toNat ≤ 8202) || c.toNat == 8232 || c.toNat == 8233 ||
  c.toNat == 8239 || c.toNat == 8287 || c.toNat == 12288 || c.toNat == 65279

/-- Drop leading white space. -/
def skipWhiteSpace : List Char → List Char
  | [] => []
  | c :: cs => if isStrWhiteSpaceChar c then skipWhiteSpace cs else c :: cs

/-- Read an optional sign; the flag is true for a minus sign. -/
def readSign : List Char → Bool × List Char
  | '-' :: cs => (true, cs)
  | '+' :: cs => (false, cs)
  | cs => (false, cs)

/-- Read the longest run of decimal digits: its value (on top of `value`), the number
of digits read (on top of `count`) and the remaining text. -/
def readDigits : List Char → Nat → Nat → Nat × Nat × List Char
  | [], value, count => (value, count, [])
  | c :: cs, value, count =>
    if c.isDigit then readDigits cs (10 * value + (c.toNat - 48)) (count + 1)
    else (value, count, c :: cs)

/-- Value of a hexadecimal digit. -/
def hexDigitValue (c : Char) : Option Nat :=
  if c.isDigit then some (c.toNat - 48)
  else if 97 ≤ c.toNat ∧ c.toNat ≤ 102 then some (c.toNat - 87)
  else if 65 ≤ c.toNat ∧ c.toNat ≤ 70 then some (c.toNat - 55)
  else none

/-- Read the longest run of hexadecimal digits: its value and the number of digits. -/
def readHexDigits : List Char → Nat → Nat → Nat × Nat
  | [], value, count => (value, count)
  | c :: cs, value, count =>
    match hexDigitValue c with
    | some d => readHexDigits cs (16 * value + d) (count + 1)
    | none => (value, count)

/-- The built-in `parseInt(text)` without a radix: leading white space, a sign, an
optional `0x` prefix, then the longest run of digits; `none` (NaN) when there is no
digit. -/
def parseInt (text : String) : Option Int :=
  let (negative, rest) := readSign (skipWhiteSpace text.toList)
  let (value, count) :=
    match rest with
    | '0' :: 'x' :: cs => readHexDigits cs 0 0
    | '0' :: 'X' :: cs => readHexDigits cs 0 0
    | cs => ((readDigits cs 0 0).1, (readDigits cs 0 0).2.1)
  if count = 0 then none
  else some (if negative then -(value : Int) else (value : Int))

/-- Read an exponent part `e±digits`; 0 when there is none. -/
def readExponent : List Char → Int
  | c :: cs =>
    if c = 'e' ∨ c = 'E' then
      let (negative, rest) := readSign cs
      let (value, count, _) := readDigits rest 0 0
      if count = 0 then 0 else if negative then -(value : Int) else (value : Int)
    else 0
  | [] => 0

/-- The built-in `parseFloat(text)`: leading white space, a sign, then the longest
prefix that is a decimal literal (digits, optional fraction, optional exponent), read
as the nearest double; `none` (NaN) when there is no such prefix. -/
def parseFloat (text : String) : Option ℚ :=
  let (negative, rest) := readSign (skipWhiteSpace text.toList)
  let (intValue, intCount, afterInt) := readDigits rest 0 0
  let (fracValue, fracCount, afterFrac) :=
    match afterInt with
    | '.' :: cs =>
      if intCount = 0 ∧ (readDigits cs 0 0).2.1 = 0 then (0, 0, afterInt)
      else readDigits cs 0 0
    | cs => (0, 0, cs)
  if intCount + fracCount = 0 then none
  else
    let mantissa : ℚ := ((intValue * 10 ^ fracCount + fracValue : Nat) : ℚ) / 10 ^ fracCount
    let magnitude := mantissa * (10 : ℚ) ^ readExponent afterFrac
    some (roundToDouble (if negative then -magnitude else magnitude))

/-- The expression `parsed || defaultValue` on a number: `NaN` and `0` are falsy. -/
def orDefault (parsed : Option ℚ) (defaultValue : ℚ) : ℚ :=
  match parsed with
  | some value => if value = 0 then defaultValue else value
  | none => defaultValue

/-- The expression `parsed || defaultValue` on the result of `parseInt`. -/
def orDefaultInt (parsed : Option Int) (defaultValue : Int) : Int :=
  match parsed with
  | some value => if value = 0 then defaultValue else value
  | none => defaultValue

/-- The helper `safeGetValue` (lines 106-113): the element's text, or the default
text when the element is missing. -/
def safeGetValue (element : Option String) (defaultValue : String) : String :=
  match element with
  | none => defaultValue
  | some value => value

/-- The function `gatherInputs` (lines 104-163). -/
def gatherInputs (form : FormState) : GatheredInputs :=
  let taxRate : Option ℚ :=
    match form.taxRate with
    | some selected =>
      if selected = "custom" then
        some (orDefault (parseFloat (safeGetValue form.customTaxRate ("25"))) 25)
      else parseFloat selected
    | none => some 25
  let contributionTiming : String :=
    match form.contributionTiming with
    | some selected => selected
    | none => "end"
  { currentAge := orDefaultInt (parseInt (safeGetValue form.currentAge ("51"))) 51
    timeHorizon := orDefaultInt (parseInt (safeGetValue form.timeHorizon ("10"))) 10
    annualContribution :=
      orDefault (parseFloat (safeGetValue form.annualContribution ("50000"))) 50000
    contributionTiming := contributionTiming
    directCAGR := orDefault (parseFloat (safeGetValue form.directCAGR ("20"))) 20
    taxRate := taxRate
    perpetualRate := orDefault (parseFloat (safeGetValue form.perpetualRate ("7"))) 7
    cvGrowthRate := orDefault (parseFloat (safeGetValue form.cvGrowthRate ("4"))) 4
    borrowPercent := orDefault (parseFloat (safeGetValue form.borrowPercent ("90"))) 90
    loanRate := orDefault (parseFloat (safeGetValue form.loanRate ("6"))) 6
    deathBenefit :=
      orDefault (parseFloat (safeGetValue form.deathBenefit ("750000"))) 750000 }

/-- The gathered record with the number `taxRate` in the place of its tax rate. -/
def GatheredInputs.withTaxRate (g : GatheredInputs) (taxRate : ℚ) : Inputs :=
  { currentAge := g.currentAge
    timeHorizon := g.timeHorizon
    annualContribution := g.annualContribution
    contributionTiming := g.contributionTiming
    directCAGR := g.directCAGR
    taxRate := taxRate
    perpetualRate := g.perpetualRate
    cvGrowthRate := g.cvGrowthRate
    borrowPercent := g.borrowPercent
    loanRate := g.loanRate
    deathBenefit := g.deathBenefit }

/-- The gathered record as a record of numbers, when its `taxRate` is a number; `none`
when `taxRate` is `NaN`. -/
def GatheredInputs.simulatorInputs (g : GatheredInputs) : Option Inputs :=
  match g.taxRate with
  | some taxRate =>
    some
      { currentAge := g.currentAge
        timeHorizon := g.timeHorizon
        annualContribution := g.annualContribution
        contributionTiming := g.contributionTiming
        directCAGR := g.directCAGR
        taxRate := taxRate
        perpetualRate := g.perpetualRate
        cvGrowthRate := g.cvGrowthRate
        borrowPercent := g.borrowPercent
        loanRate := g.loanRate
        deathBenefit := g.deathBenefit }
  | none => none

/-! ## Validation -/

/-- The messages `validateInputs` can push: `negative key` for
"⚠️ <label of key> cannot be negative" (line 176), `highBorrow` for the message of
line 182 and `lapseRisk` for the message of line 190. -/
inductive Warning where
  | negative (key : String)
  | highBorrow
  | lapseRisk
  deriving DecidableEq

/-- The `for … of Object.entries(inputs)` loop of `validateInputs` (lines 174-178): one
warning per numeric field below 0, in the order of the keys; `contributionTiming` is a
string and `NaN < 0` is false. -/
def negativeWarnings (inputs : GatheredInputs) : List Warning :=
  (if inputs.currentAge < 0 then [Warning.negative ("currentAge")] else []) ++
  (if inputs.timeHorizon < 0 then [Warning.negative ("timeHorizon")] else []) ++
  (if inputs.annualContribution < 0 then [Warning.negative ("annualContribution")]
    else []) ++
  (if inputs.directCAGR < 0 then [Warning.negative ("directCAGR")] else []) ++
  (match inputs.taxRate with
    | some taxRate => if taxRate < 0 then [Warning.negative ("taxRate")] else []
    | none => []) ++
  (if inputs.perpetualRate < 0 then [Warning.negative ("perpetualRate")] else []) ++
  (if inputs.cvGrowthRate < 0 then [Warning.negative ("cvGrowthRate")] else []) ++
  (if inputs.borrowPercent < 0 then [Warning.negative ("borrowPercent")] else []) ++
  (if inputs.loanRate < 0 then [Warning.negative ("loanRate")] else []) ++
  (if inputs.deathBenefit < 0 then [Warning.negative ("deathBenefit")] else [])

/-- The array `warnings` of `validateInputs` (lines 171-191) for the gathered inputs.
The two estimates and their comparison (lines 186-189) are computed as the code does,
one rounded double operation after the other. -/
def validationWarnings (inputs : GatheredInputs) : List Warning :=
  let warnings := negativeWarnings inputs
  let warnings :=
    if inputs.borrowPercent > 95 then warnings ++ [Warning.highBorrow] else warnings
  let estimatedLoanBalance :=
    jsMul (jsMul inputs.annualContribution (inputs.timeHorizon : ℚ))
      (jsDiv inputs.borrowPercent 100)
  let estimatedCashValue :=
    jsMul (jsMul inputs.annualContribution (inputs.timeHorizon : ℚ))
      (jsAdd 1 (jsDiv inputs.cvGrowthRate 100))
  if estimatedLoanBalance > jsMul estimatedCashValue 0.5 then
    warnings ++ [Warning.lapseRisk]
  else warnings

/-- The function `validateInputs` (lines 169-212): it gathers the inputs itself and
returns `warnings.length === 0`; showing the warnings on the page has no part in the
value. -/
def validateInputs (form : FormState) : Bool :=
  decide ((validationWarnings (gatherInputs form)).length = 0)

/-! ## The simulators as `calculate` runs them

`calculate` hands the gathered record to both simulators.  Its `taxRate` may be `NaN`;
an arithmetic operation with a `NaN` operand gives `NaN`, and so does
`Math.max(0, NaN)`. -/

/-- A binary arithmetic operator on numbers of which either may be `NaN` (`none`). -/
def nanLift (op : ℚ → ℚ → ℚ) (x y : Option ℚ) : Option ℚ :=
  match x, y with
  | some a, some b => some (op a b)
  | _, _ => none

/-- The call `Math.max(0, x)` when `x` may be `NaN`. -/
def nanMaxZero (x : Option ℚ) : Option ℚ :=
  match x with
  | some a => some (max 0 a)
  | none => none

/-- The object `calculatePlan1` returns when `taxRate` may be `NaN`: the fields
computed from the tax rate are numbers or `NaN` (`none`). -/
structure Plan1Stored where
  yearlyData : List Plan1Year
  portfolioValue : ℚ
  totalContributed : ℚ
  gains : ℚ
  taxOnGains : Option ℚ
  afterTaxCapital : Option ℚ
  annuitizedAmount : Option ℚ
  liquidityFund : Option ℚ
  perpetualIncome : Option ℚ
  liquidity : Option ℚ
  netLegacy : ℚ

/-- The object `calculatePlan2` returns when `taxRate` may be `NaN`. -/
structure Plan2Stored where
  yearlyData : List Plan2Year
  cashValue : ℚ
  epigValue : ℚ
  epigAfterInterest : ℚ
  epigAfterTax : Option ℚ
  cumulativeInterest : ℚ
  taxOnEPIGGains : Option ℚ
  loanBalance : ℚ
  totalPremiumsPaid : ℚ
  epigGains : ℚ
  netEPIGAfterLoanPayoff : Option ℚ
  annuitizableAmount : Option ℚ
  totalLiquidity : ℚ
  perpetualIncome : Option ℚ
  grossDeathBenefit : ℚ
  netDeathBenefit : ℚ
  netLegacy : ℚ

/-- A result of `calculatePlan1` on numbers, as a stored result none of whose fields
is `NaN`. -/
def Plan1Result.stored (r : Plan1Result) : Plan1Stored :=
  { yearlyData := r.yearlyData
    portfolioValue := r.portfolioValue
    totalContributed := r.totalContributed
    gains := r.gains
    taxOnGains := some r.taxOnGains
    afterTaxCapital := some r.afterTaxCapital
    annuitizedAmount := some r.annuitizedAmount
    liquidityFund := some r.liquidityFund
    perpetualIncome := some r.perpetualIncome
    liquidity := some r.liquidity
    netLegacy := r.netLegacy }

/-- A result of `calculatePlan2` on numbers, as a stored result none of whose fields
is `NaN`. -/
def Plan2Result.stored (r : Plan2Result) : Plan2Stored :=
  { yearlyData := r.yearlyData
    cashValue := r.cashValue
    epigValue := r.epigValue
    epigAfterInterest := r.epigAfterInterest
    epigAfterTax := some r.epigAfterTax
    cumulativeInterest := r.cumulativeInterest
    taxOnEPIGGains := some r.taxOnEPIGGains
    loanBalance := r.loanBalance
    totalPremiumsPaid := r.totalPremiumsPaid
    epigGains := r.epigGains
    netEPIGAfterLoanPayoff := some r.netEPIGAfterLoanPayoff
    annuitizableAmount := some r.annuitizableAmount
    totalLiquidity := r.totalLiquidity
    perpetualIncome := some r.perpetualIncome
    grossDeathBenefit := r.grossDeathBenefit
    netDeathBenefit := r.netDeathBenefit
    netLegacy := r.netLegacy }

/-- The function `calculatePlan1` (lines 267-325) on the gathered record.  The year
loop does not read `taxRate` (lines 273-288); it runs on the record with 0 in that
place.  Lines 293-304 are computed with the gathered `taxRate`, `NaN` included. -/
def calculatePlan1Gathered (inputs : GatheredInputs) : Plan1Stored :=
  let st := plan1Loop (inputs.withTaxRate 0) inputs.timeHorizon.toNat
  let portfolioValue := st.portfolioValue
  let totalContributed := inputs.annualContribution * (inputs.timeHorizon : ℚ)
  let gains := portfolioValue - totalContributed
  let taxOnGains :=
    nanLift (fun a b => a * b) (some gains)
      (nanLift (fun a b => a / b) inputs.taxRate (some 100))
  let afterTaxCapital := nanLift (fun a b => a - b) (some portfolioValue) taxOnGains
  let annuitizedAmount := nanLift (fun a b => a * b) afterTaxCapital (some 0.70)
  let liquidityFund := nanLift (fun a b => a * b) afterTaxCapital (some 0.30)
  let perpetualIncome :=
    nanLift (fun a b => a * b) annuitizedAmount (some (inputs.perpetualRate / 100))
  let liquidity := liquidityFund
  let netLegacy := 0
  { yearlyData := st.yearlyData
    portfolioValue := portfolioValue
    totalContributed := totalContributed
    gains := gains
    taxOnGains := taxOnGains
    afterTaxCapital := afterTaxCapital
    annuitizedAmount := annuitizedAmount
    liquidityFund := liquidityFund
    perpetualIncome := perpetualIncome
    liquidity := liquidity
    netLegacy := netLegacy }

/-- The function `calculatePlan2` (lines 331-441) on the gathered record.  The year
loop does not read `taxRate` (lines 343-385); it runs on the record with 0 in that
place.  Lines 397-408 are computed with the gathered `taxRate`, `NaN` included. -/
def calculatePlan2Gathered (inputs : GatheredInputs) : Plan2Stored :=
  let st := plan2Loop (inputs.withTaxRate 0) inputs.timeHorizon.toNat
  let cashValue := st.cashValue
  let epigValue := st.epigValue
  let loanBalance := st.loanBalance
  let cumulativeInterest := st.cumulativeInterest
  let totalPremiumsPaid := inputs.annualContribution * (inputs.timeHorizon : ℚ)
  let epigAfterInterest := epigValue - cumulativeInterest
  let totalBorrowed :=
    inputs.annualContribution * (inputs.timeHorizon : ℚ) * (inputs.borrowPercent / 100)
  let epigGains := epigAfterInterest - totalBorrowed
  let taxOnEPIGGains :=
    nanLift (fun a b => a * b) (some epigGains)
      (nanLift (fun a b => a / b) inputs.taxRate (some 100))
  let epigAfterTax := nanLift (fun a b => a - b) (some epigAfterInterest) taxOnEPIGGains
  let netEPIGAfterLoanPayoff :=
    nanMaxZero (nanLift (fun a b => a - b) epigAfterTax (some loanBalance))
  let annuitizableAmount := netEPIGAfterLoanPayoff
  let perpetualIncome :=
    nanLift (fun a b => a * b) annuitizableAmount (some (inputs.perpetualRate / 100))
  let totalLiquidity := cashValue
  let grossDeathBenefit := inputs.deathBenefit
  let netDeathBenefit := inputs.deathBenefit
  let netLegacy := netDeathBenefit - totalPremiumsPaid
  { yearlyData := st.yearlyData
    cashValue := cashValue
    epigValue := epigValue
    epigAfterInterest := epigAfterInterest
    epigAfterTax := epigAfterTax
    cumulativeInterest := cumulativeInterest
    taxOnEPIGGains := taxOnEPIGGains
    loanBalance := loanBalance
    totalPremiumsPaid := totalPremiumsPaid
    epigGains := epigGains
    netEPIGAfterLoanPayoff := netEPIGAfterLoanPayoff
    annuitizableAmount := annuitizableAmount
    totalLiquidity := totalLiquidity
    perpetualIncome := perpetualIncome
    grossDeathBenefit := grossDeathBenefit
    netDeathBenefit := netDeathBenefit
    netLegacy := netLegacy }

/-- The function `calculate` (lines 225-248): the pair stored in
`calculatorState.results`.  The value of `validateInputs` is dropped, as in the source,
and both simulators run on the gathered record whatever it holds. -/
def calculate (form : FormState) : Plan1Stored × Plan2Stored :=
  let inputs := gatherInputs form
  let _valid := validateInputs form
  (calculatePlan1Gathered inputs, calculatePlan2Gathered inputs)

/-- The form with every element missing. -/
def emptyForm : FormState :=
  { currentAge := none, timeHorizon := none, annualContribution := none,
    contributionTiming := none, directCAGR := none, taxRate := none,
    customTaxRate := none, perpetualRate := none, cvGrowthRate := none,
    borrowPercent := none, loanRate := none, deathBenefit := none }

/-- The documented defaults as a gathered record. -/
def defaultGathered : GatheredInputs :=
  { currentAge := 51, timeHorizon := 10, annualContribution := 50000,
    contributionTiming := "end", directCAGR := 20, taxRate := some 25,
    perpetualRate := 7, cvGrowthRate := 4, borrowPercent := 90, loanRate := 6,
    deathBenefit := 750000 }

/-! ## Closed forms of the year loops -/

/-- Closed form for END timing, as the sum is written: `d * (g^0 + g^1 + … + g^(n-1))`. -/
def geometricSumEnd (d g : ℚ) (n : Nat) : ℚ :=
  d * Finset.sum (Finset.range n) (fun i => g ^ i)

/-- Closed form for START timing, as the sum is written: `d * (g^1 + … + g^n)`. -/
def geometricSumStart (d g : ℚ) (n : Nat) : ℚ :=
  d * Finset.sum (Finset.range n) (fun i => g ^ (i + 1))

/-- The form whose tax-rate select is present with an empty value and every other
element missing. -/
def blankTaxSelectForm : FormState :=
  { emptyForm with taxRate := some "" }

/-- The form whose only elements are the fields directCAGR, borrowPercent and
annualContribution, each holding the text 0. -/
def zeroFieldsForm : FormState :=
  { emptyForm with
    directCAGR := some "0", borrowPercent := some "0", annualContribution := some "0" }

/-- The element is missing, or its text is one `parseFloat` turns into `NaN`. -/
def absentOrNaN (element : Option String) : Prop :=
  ∀ text, element = some text → parseFloat text = none

/-- The element is missing, or its text is one `parseInt` turns into `NaN`. -/
def absentOrNaNInt (element : Option String) : Prop :=
  ∀ text, element = some text → parseInt text = none

/-- The form whose only element is the borrowPercent field, holding the text 150. -/
def highBorrowForm : FormState :=
  { emptyForm with borrowPercent := some "150" }

/-- The documented defaults with a directCAGR of 0. -/
def zeroGrowthInputs : Inputs :=
  { defaultInputs with directCAGR := 0 }

/-- The documented defaults with a timeHorizon of -5, as `parseInt` reads the
text -5. -/
def negativeHorizonInputs : Inputs :=
  { defaultInputs with timeHorizon := -5 }

/-- The documented defaults with a perpetualRate of -7, as `parseFloat` reads the
text -7. -/
def negativePayoutInputs : Inputs :=
  { defaultInputs with perpetualRate := -7 }

/-- The documented defaults with borrowPercent 68 and cvGrowthRate 36, where
68 = 50 + 36/2. -/
def boundaryGathered : GatheredInputs :=
  { defaultGathered with borrowPercent := 68, cvGrowthRate := 36 }

/-! ## Loop invariants -/

theorem growthSum_ge (timing : String) (g : ℚ) (hg : 1 ≤ g) (k : Nat) :
    (k : ℚ) ≤ growthSum timing g k := by
  induction k with
  | zero => simp [growthSum]
  | succ k ih =>
    have hk : (0 : ℚ) ≤ k := Nat.cast_nonneg k
    simp only [growthSum]
    push_cast
    split_ifs
    · nlinarith
    · nlinarith

theorem plan1Loop_portfolioValue (inputs : Inputs) (k : Nat) :
    (plan1Loop inputs k).portfolioValue =
      inputs.annualContribution *
        growthSum inputs.contributionTiming (1 + inputs.directCAGR / 100) k := by
  induction k with
  | zero => simp [plan1Loop, growthSum]
  | succ k ih =>
    simp only [plan1Loop, plan1Body, growthSum, ih]
    split_ifs <;> ring

theorem plan2Loop_cashValue (inputs : Inputs) (k : Nat) :
    (plan2Loop inputs k).cashValue =
      inputs.annualContribution *
        growthSum inputs.contributionTiming (1 + inputs.cvGrowthRate / 100) k := by
  induction k with
  | zero => simp [plan2Loop, growthSum]
  | succ k ih =>
    simp only [plan2Loop, plan2Body, growthSum, ih]
    split_ifs <;> ring

theorem plan2Loop_epigValue (inputs : Inputs) (k : Nat) :
    (plan2Loop inputs k).epigValue =
      inputs.annualContribution * (inputs.borrowPercent / 100) *
        growthSum inputs.contributionTiming (1 + inputs.directCAGR / 100) k := by
  induction k with
  | zero => simp [plan2Loop, growthSum]
  | succ k ih =>
    simp only [plan2Loop, plan2Body, growthSum, ih]
    split_ifs <;> ring

theorem plan2Loop_loanBalance (inputs : Inputs) (k : Nat) :
    (plan2Loop inputs k).loanBalance =
      (k : ℚ) * inputs.annualContribution * (inputs.borrowPercent / 100) := by
  induction k with
  | zero => simp [plan2Loop]
  | succ k ih =>
    simp only [plan2Loop, plan2Body, ih]
    push_cast
    ring

theorem plan2Loop_cumulativeInterest (inputs : Inputs) (k : Nat) :
    (plan2Loop inputs k).cumulativeInterest =
      inputs.annualContribution * (inputs.borrowPercent / 100) * (inputs.loanRate / 100) *
        ((k : ℚ) * ((k : ℚ) - 1) / 2) := by
  induction k with
  | zero => simp [plan2Loop]
  | succ k ih =>
    simp only [plan2Loop, plan2Body, ih, plan2Loop_loanBalance]
    push_cast
    ring

theorem plan2Loop_yearlyData_length (inputs : Inputs) (k : Nat) :
    (plan2Loop inputs k).yearlyData.length = k := by
  induction k with
  | zero => simp [plan2Loop]
  | succ k ih => simp [plan2Loop, plan2Body, ih]

/-- The record pushed in year `j + 1` stays at index `j` and holds the balances
reached at the end of that year, with the interest charged on the balance the
year started from. -/
theorem plan2Loop_yearlyData_get (inputs : Inputs) (k j : Nat) (hj : j < k) :
    ∃ r : Plan2Year, (plan2Loop inputs k).yearlyData[j]? = some r ∧
      r.year = ((j + 1 : Nat) : Int) ∧
      r.loanBalance = (plan2Loop inputs (j + 1)).loanBalance ∧
      r.interestPayment = (plan2Loop inputs j).loanBalance * (inputs.loanRate / 100) ∧
      r.cumulativeInterest = (plan2Loop inputs (j + 1)).cumulativeInterest ∧
      r.epigValue = (plan2Loop inputs (j + 1)).epigValue ∧
      r.cashValue = (plan2Loop inputs (j + 1)).cashValue := by
  induction k with
  | zero => omega
  | succ k ih =>
    have hlen := plan2Loop_yearlyData_length inputs k
    rcases Nat.lt_succ_iff_lt_or_eq.mp hj with hlt | heq
    · obtain ⟨r, hr, hrest⟩ := ih hlt
      refine ⟨r, ?_, hrest⟩
      simp only [plan2Loop, plan2Body]
      rw [List.getElem?_append_left (by omega)]
      exact hr
    · subst heq
      simp only [plan2Loop, plan2Body]
      rw [List.getElem?_append_right (by omega)]
      simp [hlen]

theorem timeHorizon_cast (inputs : Inputs) (hn : 0 ≤ inputs.timeHorizon) :
    (inputs.timeHorizon : ℚ) = (inputs.timeHorizon.toNat : ℚ) := by
  rw [← Int.cast_natCast, Int.toNat_of_nonneg hn]

/-! ## Plan 2: loan principal and interest -/

/-- C1: for an integer timeHorizon n ≥ 1, the loanBalance that calculatePlan2 records
after year k is k * annualContribution * borrowPercent/100 for every k in 1..n, and
the terminal loanBalance is annualContribution * timeHorizon * borrowPercent/100;
loanRate does not occur in either value, so interest is never added to principal. -/
theorem loanBalance_principal_only (inputs : Inputs) (hn : 1 ≤ inputs.timeHorizon) :
    (∀ k : Nat, 1 ≤ k → (k : Int) ≤ inputs.timeHorizon →
      ∃ r : Plan2Year, (calculatePlan2 inputs).yearlyData[k - 1]? = some r ∧
        r.year = (k : Int) ∧
        r.loanBalance =
          (k : ℚ) * inputs.annualContribution * (inputs.borrowPercent / 100)) ∧
    (calculatePlan2 inputs).loanBalance =
      inputs.annualContribution * (inputs.timeHorizon : ℚ) * (inputs.borrowPercent / 100) := by
  constructor
  · intro k hk1 hkn
    have hlt : k - 1 < inputs.timeHorizon.toNat := by omega
    obtain ⟨r, hr, hyear, hloan, -⟩ :=
      plan2Loop_yearlyData_get inputs inputs.timeHorizon.toNat (k - 1) hlt
    have hk : k - 1 + 1 = k := by omega
    rw [hk] at hyear hloan
    exact ⟨r, hr, hyear, by rw [hloan, plan2Loop_loanBalance]⟩
  · show (plan2Loop inputs inputs.timeHorizon.toNat).loanBalance = _
    rw [plan2Loop_loanBalance, timeHorizon_cast inputs (by omega)]
    ring

/-- Witness for C1 at the documented defaults: ten years of 50000 at 90 % leave a
loan balance of 450000. -/
theorem loanBalance_principal_only_witness :
    (1 : Int) ≤ defaultInputs.timeHorizon ∧
      (calculatePlan2 defaultInputs).loanBalance =
        defaultInputs.annualContribution * (defaultInputs.timeHorizon : ℚ) *
          (defaultInputs.borrowPercent / 100) :=
  ⟨by decide, (loanBalance_principal_only defaultInputs (by decide)).2⟩

/-- On numbers the clamp holds: for every input whose fields are numbers, also one
whose loanBalance exceeds epigAfterTax, the netEPIGAfterLoanPayoff returned by
calculatePlan2 is non-negative. -/
theorem netEPIGAfterLoanPayoff_nonneg (inputs : Inputs) :
    0 ≤ (calculatePlan2 inputs).netEPIGAfterLoanPayoff :=
  le_max_left _ _

/-! ## Plan 1: derived values -/

/-- C3: for every input to calculatePlan1, annuitizedAmount is 0.70 of afterTaxCapital,
liquidityFund is 0.30 of it, and the two add up to afterTaxCapital exactly. -/
theorem annuitized_liquidity_partition (inputs : Inputs) :
    (calculatePlan1 inputs).annuitizedAmount + (calculatePlan1 inputs).liquidityFund =
        (calculatePlan1 inputs).afterTaxCapital ∧
      (calculatePlan1 inputs).annuitizedAmount =
        0.70 * (calculatePlan1 inputs).afterTaxCapital ∧
      (calculatePlan1 inputs).liquidityFund =
        0.30 * (calculatePlan1 inputs).afterTaxCapital := by
  simp only [calculatePlan1]
  refine ⟨?_, ?_, ?_⟩ <;> ring

/-- C9: with P the portfolioValue left by the year loop, calculatePlan1 returns
totalContributed = annualContribution * timeHorizon, gains = P - totalContributed,
taxOnGains = gains * taxRate/100, afterTaxCapital = P - taxOnGains,
perpetualIncome = 0.70 * afterTaxCapital * perpetualRate/100 and
liquidity = 0.30 * afterTaxCapital. -/
theorem plan1_derived_values (inputs : Inputs) :
    (calculatePlan1 inputs).portfolioValue =
        (plan1Loop inputs inputs.timeHorizon.toNat).portfolioValue ∧
      (calculatePlan1 inputs).totalContributed =
        inputs.annualContribution * (inputs.timeHorizon : ℚ) ∧
      (calculatePlan1 inputs).gains =
        (calculatePlan1 inputs).portfolioValue - (calculatePlan1 inputs).totalContributed ∧
      (calculatePlan1 inputs).taxOnGains =
        (calculatePlan1 inputs).gains * (inputs.taxRate / 100) ∧
      (calculatePlan1 inputs).afterTaxCapital =
        (calculatePlan1 inputs).portfolioValue - (calculatePlan1 inputs).taxOnGains ∧
      (calculatePlan1 inputs).perpetualIncome =
        0.70 * (calculatePlan1 inputs).afterTaxCapital * (inputs.perpetualRate / 100) ∧
      (calculatePlan1 inputs).liquidity = 0.30 * (calculatePlan1 inputs).afterTaxCapital := by
  refine ⟨rfl, rfl, rfl, rfl, rfl, ?_, ?_⟩ <;> simp only [calculatePlan1] <;> ring

/-- C10: for an integer timeHorizon n ≥ 1, the interestPayment that calculatePlan2
records in year k is the loan balance at the beginning of that year times loanRate/100,
which is (k-1) * annualContribution * borrowPercent/100 * loanRate/100 (zero in
year 1), and the terminal cumulativeInterest is
annualContribution * borrowPercent/100 * loanRate/100 * n*(n-1)/2. -/
theorem interest_on_opening_balance (inputs : Inputs) (hn : 1 ≤ inputs.timeHorizon) :
    (∀ k : Nat, 1 ≤ k → (k : Int) ≤ inputs.timeHorizon →
      ∃ r : Plan2Year, (calculatePlan2 inputs).yearlyData[k - 1]? = some r ∧
        r.year = (k : Int) ∧
        r.interestPayment =
          (plan2Loop inputs (k - 1)).loanBalance * (inputs.loanRate / 100) ∧
        r.interestPayment =
          ((k : ℚ) - 1) * inputs.annualContribution * (inputs.borrowPercent / 100) *
            (inputs.loanRate / 100) ∧
        (k = 1 → r.interestPayment = 0)) ∧
    (calculatePlan2 inputs).cumulativeInterest =
      inputs.annualContribution * (inputs.borrowPercent / 100) * (inputs.loanRate / 100) *
        ((inputs.timeHorizon : ℚ) * ((inputs.timeHorizon : ℚ) - 1) / 2) := by
  constructor
  · intro k hk1 hkn
    have hlt : k - 1 < inputs.timeHorizon.toNat := by omega
    obtain ⟨r, hr, hyear, -, hint, -⟩ :=
      plan2Loop_yearlyData_get inputs inputs.timeHorizon.toNat (k - 1) hlt
    have hk : k - 1 + 1 = k := by omega
    rw [hk] at hyear
    have hcast : ((k - 1 : Nat) : ℚ) = (k : ℚ) - 1 := by
      rw [Nat.cast_sub hk1]; simp
    have hval : r.interestPayment =
        ((k : ℚ) - 1) * inputs.annualContribution * (inputs.borrowPercent / 100) *
          (inputs.loanRate / 100) := by
      rw [hint, plan2Loop_loanBalance, hcast]
    refine ⟨r, hr, hyear, hint, hval, ?_⟩
    intro h1
    rw [hval, h1]
    simp
  · show (plan2Loop inputs inputs.timeHorizon.toNat).cumulativeInterest = _
    rw [plan2Loop_cumulativeInterest, timeHorizon_cast inputs (by omega)]

/-- Witness for C10 at the documented defaults. -/
theorem interest_on_opening_balance_witness :
    (1 : Int) ≤ defaultInputs.timeHorizon ∧
      (calculatePlan2 defaultInputs).cumulativeInterest =
        defaultInputs.annualContribution * (defaultInputs.borrowPercent / 100) *
          (defaultInputs.loanRate / 100) *
          ((defaultInputs.timeHorizon : ℚ) * ((defaultInputs.timeHorizon : ℚ) - 1) / 2) :=
  ⟨by decide, (interest_on_opening_balance defaultInputs (by decide)).2⟩

/-! ## The documented default scenario -/

theorem plan1Loop_default_portfolioValue :
    (plan1Loop defaultInputs 10).portfolioValue = 1297934.1056 := by
  simp [plan1Loop, plan1Body, defaultInputs]
  norm_num

theorem round_eq_of_mem (x : ℚ) (z : Int) (h1 : (z : ℚ) - 1 / 2 ≤ x)
    (h2 : x < (z : ℚ) + 1 / 2) : round x = z := by
  rw [round_eq, Int.floor_eq_iff]
  constructor <;> linarith

/-- C6: with the documented defaults calculatePlan1 returns, to the nearest whole
dollar, portfolioValue 1,297,934, afterTaxCapital 1,098,451, liquidityFund 329,535 and
perpetualIncome 53,824, and netLegacy exactly 0. -/
theorem plan1_default_scenario :
    round (calculatePlan1 defaultInputs).portfolioValue = 1297934 ∧
      round (calculatePlan1 defaultInputs).afterTaxCapital = 1098451 ∧
      round (calculatePlan1 defaultInputs).liquidityFund = 329535 ∧
      round (calculatePlan1 defaultInputs).perpetualIncome = 53824 ∧
      (calculatePlan1 defaultInputs).netLegacy = 0 := by
  have hP : (plan1Loop defaultInputs defaultInputs.timeHorizon.toNat).portfolioValue =
      1297934.1056 := plan1Loop_default_portfolioValue
  refine ⟨?_, ?_, ?_, ?_, rfl⟩
  all_goals
    simp only [calculatePlan1, hP]
    apply round_eq_of_mem <;> norm_num [defaultInputs]

theorem plan2Loop_default_cashValue :
    (plan2Loop defaultInputs 10).cashValue = 732794624204016 / 1220703125 := by
  rw [plan2Loop_cashValue]
  simp [growthSum, defaultInputs]
  norm_num

theorem plan2Loop_default_epigValue :
    (plan2Loop defaultInputs 10).epigValue = 1168140.69504 := by
  rw [plan2Loop_epigValue]
  simp [growthSum, defaultInputs]
  norm_num

theorem plan2Loop_default_loanBalance :
    (plan2Loop defaultInputs 10).loanBalance = 450000 := by
  rw [plan2Loop_loanBalance]
  norm_num [defaultInputs]

theorem plan2Loop_default_cumulativeInterest :
    (plan2Loop defaultInputs 10).cumulativeInterest = 121500 := by
  rw [plan2Loop_cumulativeInterest]
  norm_num [defaultInputs]

/-- C7: with the documented defaults calculatePlan2 returns loanBalance 450,000,
netLegacy 250,000 and cumulativeInterest 121,500 exactly and, to the nearest whole
dollar, netEPIGAfterLoanPayoff 447,481 and perpetualIncome 31,324. -/
theorem plan2_default_scenario :
    (calculatePlan2 defaultInputs).loanBalance = 450000 ∧
      (calculatePlan2 defaultInputs).netLegacy = 250000 ∧
      (calculatePlan2 defaultInputs).cumulativeInterest = 121500 ∧
      round (calculatePlan2 defaultInputs).netEPIGAfterLoanPayoff = 447481 ∧
      round (calculatePlan2 defaultInputs).perpetualIncome = 31324 := by
  have hE : (plan2Loop defaultInputs defaultInputs.timeHorizon.toNat).epigValue =
      1168140.69504 := plan2Loop_default_epigValue
  have hL : (plan2Loop defaultInputs defaultInputs.timeHorizon.toNat).loanBalance =
      450000 := plan2Loop_default_loanBalance
  have hI : (plan2Loop defaultInputs defaultInputs.timeHorizon.toNat).cumulativeInterest =
      121500 := plan2Loop_default_cumulativeInterest
  have hnet : (calculatePlan2 defaultInputs).netEPIGAfterLoanPayoff = 447480.52128 := by
    simp only [calculatePlan2, hE, hL, hI]
    norm_num [defaultInputs]
  refine ⟨hL, ?_, hI, ?_, ?_⟩
  · simp only [calculatePlan2]
    norm_num [defaultInputs]
  · rw [hnet]
    apply round_eq_of_mem <;> norm_num
  · have hp : (calculatePlan2 defaultInputs).perpetualIncome =
        (calculatePlan2 defaultInputs).netEPIGAfterLoanPayoff *
          (defaultInputs.perpetualRate / 100) := rfl
    rw [hp, hnet]
    apply round_eq_of_mem <;> norm_num [defaultInputs]

/-- C8 as stated fails: with the documented defaults the cashValue returned by
calculatePlan2 does not round to 600,395 (and neither does totalLiquidity). -/
theorem plan2_default_cashValue_not_600395 :
    ¬ (round (calculatePlan2 defaultInputs).cashValue = 600395 ∧
        round (calculatePlan2 defaultInputs).totalLiquidity = 600395) := by
  have hC : (calculatePlan2 defaultInputs).cashValue = 732794624204016 / 1220703125 :=
    plan2Loop_default_cashValue
  have hr : round (calculatePlan2 defaultInputs).cashValue = 600305 := by
    rw [hC]
    apply round_eq_of_mem <;> norm_num
  rintro ⟨h, -⟩
  rw [hr] at h
  exact absurd h (by decide)

/-- C8, amended: with the documented defaults (ten END-timed contributions of 50000
growing at 4 %) calculatePlan2 returns cashValue and totalLiquidity both equal to
600,305 to the nearest whole dollar; the exact value is 50000 * (1.04^10 - 1) / 0.04. -/
theorem plan2_default_cashValue :
    round (calculatePlan2 defaultInputs).cashValue = 600305 ∧
      round (calculatePlan2 defaultInputs).totalLiquidity = 600305 ∧
      (calculatePlan2 defaultInputs).cashValue = 50000 * ((1.04 : ℚ) ^ 10 - 1) / 0.04 := by
  have hC : (calculatePlan2 defaultInputs).cashValue = 732794624204016 / 1220703125 :=
    plan2Loop_default_cashValue
  have hT : (calculatePlan2 defaultInputs).totalLiquidity =
      (calculatePlan2 defaultInputs).cashValue := rfl
  refine ⟨?_, ?_, ?_⟩
  · rw [hC]
    apply round_eq_of_mem <;> norm_num
  · rw [hT, hC]
    apply round_eq_of_mem <;> norm_num
  · rw [hC]
    norm_num

/-! ## Dependence on the annual contribution -/

theorem plan1_afterTaxCapital_eq (inputs : Inputs) (hn : 0 ≤ inputs.timeHorizon) :
    (calculatePlan1 inputs).afterTaxCapital =
      inputs.annualContribution * plan1CapitalFactor inputs := by
  simp only [calculatePlan1, plan1CapitalFactor, plan1Loop_portfolioValue,
    timeHorizon_cast inputs hn]
  ring

theorem plan2_netEPIG_eq (inputs : Inputs) (hn : 0 ≤ inputs.timeHorizon) :
    (calculatePlan2 inputs).netEPIGAfterLoanPayoff =
      max 0 (inputs.annualContribution * plan2NetFactor inputs) := by
  simp only [calculatePlan2, plan2NetFactor, plan2Loop_epigValue, plan2Loop_loanBalance,
    plan2Loop_cumulativeInterest, timeHorizon_cast inputs hn]
  congr 1
  ring

theorem plan2_cashValue_eq (inputs : Inputs) :
    (calculatePlan2 inputs).totalLiquidity =
      inputs.annualContribution *
        growthSum inputs.contributionTiming (1 + inputs.cvGrowthRate / 100)
          inputs.timeHorizon.toNat :=
  plan2Loop_cashValue inputs inputs.timeHorizon.toNat

theorem plan1CapitalFactor_pos (inputs : Inputs) (hn : 1 ≤ inputs.timeHorizon)
    (hd : 0 ≤ inputs.directCAGR) (ht0 : 0 ≤ inputs.taxRate) (ht : inputs.taxRate ≤ 100) :
    0 < plan1CapitalFactor inputs := by
  have hS := growthSum_ge inputs.contributionTiming (1 + inputs.directCAGR / 100)
    (by linarith [div_nonneg hd (by norm_num : (0 : ℚ) ≤ 100)]) inputs.timeHorizon.toNat
  have hN : (1 : ℚ) ≤ (inputs.timeHorizon.toNat : ℚ) := by
    have : 1 ≤ inputs.timeHorizon.toNat := by omega
    exact_mod_cast this
  unfold plan1CapitalFactor
  have h1 : 0 ≤ inputs.taxRate / 100 := div_nonneg ht0 (by norm_num)
  have h2 : inputs.taxRate / 100 ≤ 1 := by
    rw [div_le_one (by norm_num)]; exact ht
  nlinarith

theorem plan2NetFactor_default_60000 :
    plan2NetFactor (withContribution defaultInputs 60000) = 8.9496104256 := by
  simp [plan2NetFactor, growthSum, withContribution, defaultInputs]
  norm_num

theorem max_mul_le_max_mul (a a2 K : ℚ) (ha0 : 0 ≤ a) (ha : a < a2) :
    max 0 (a * K) ≤ max 0 (a2 * K) := by
  rcases le_or_lt 0 K with hK | hK
  · exact max_le_max le_rfl (mul_le_mul_of_nonneg_right ha.le hK)
  · have h1 : a * K ≤ 0 := mul_nonpos_of_nonneg_of_nonpos ha0 hK.le
    rw [max_eq_left h1]
    exact le_max_left _ _

theorem max_mul_lt_max_mul (a a2 K : ℚ) (ha0 : 0 ≤ a) (ha : a < a2)
    (hpos : 0 < max 0 (a2 * K)) : max 0 (a * K) < max 0 (a2 * K) := by
  have h2 : 0 < a2 * K := by
    rcases lt_max_iff.mp hpos with h | h
    · exact absurd h (lt_irrefl 0)
    · exact h
  have hK : 0 < K := by
    by_contra hcon
    have : a2 * K ≤ 0 := mul_nonpos_of_nonneg_of_nonpos (by linarith) (not_lt.mp hcon)
    linarith
  rw [max_eq_right h2.le]
  exact max_lt h2 (mul_lt_mul_of_pos_right ha hK)

/-- C4 as stated fails, in three ways. With a 5 % return (below the loan rate) Plan 2's
net leveraged portfolio is clamped to 0 for both contributions, so its perpetualIncome
stays 0; with perpetualRate 0 Plan 1's perpetualIncome is 0 for both; with a taxRate of
200 Plan 1's perpetualIncome falls when the contribution rises. -/
theorem perpetualIncome_not_strictMono :
    (ValidInputs lowReturnInputs ∧ lowReturnInputs.annualContribution < 60000 ∧
      ¬ ((calculatePlan1 lowReturnInputs).perpetualIncome <
            (calculatePlan1 (withContribution lowReturnInputs 60000)).perpetualIncome ∧
          (calculatePlan2 lowReturnInputs).perpetualIncome <
            (calculatePlan2 (withContribution lowReturnInputs 60000)).perpetualIncome)) ∧
    (ValidInputs zeroPayoutInputs ∧ zeroPayoutInputs.annualContribution < 60000 ∧
      ¬ ((calculatePlan1 zeroPayoutInputs).perpetualIncome <
            (calculatePlan1 (withContribution zeroPayoutInputs 60000)).perpetualIncome ∧
          (calculatePlan2 zeroPayoutInputs).perpetualIncome <
            (calculatePlan2 (withContribution zeroPayoutInputs 60000)).perpetualIncome)) ∧
    (ValidInputs highTaxInputs ∧ highTaxInputs.annualContribution < 60000 ∧
      ¬ ((calculatePlan1 highTaxInputs).perpetualIncome <
            (calculatePlan1 (withContribution highTaxInputs 60000)).perpetualIncome ∧
          (calculatePlan2 highTaxInputs).perpetualIncome <
            (calculatePlan2 (withContribution highTaxInputs 60000)).perpetualIncome)) := by
  refine ⟨⟨?_, ?_, ?_⟩, ⟨?_, ?_, ?_⟩, ⟨?_, ?_, ?_⟩⟩
  · norm_num [ValidInputs, lowReturnInputs, defaultInputs]
  · norm_num [lowReturnInputs, defaultInputs]
  · rintro ⟨-, h⟩
    have e1 : (calculatePlan2 lowReturnInputs).perpetualIncome = 0 := by
      show (calculatePlan2 lowReturnInputs).netEPIGAfterLoanPayoff * _ = 0
      rw [plan2_netEPIG_eq _ (by decide)]
      simp [plan2NetFactor, growthSum, lowReturnInputs, defaultInputs]
      norm_num
    have e2 : (calculatePlan2 (withContribution lowReturnInputs 60000)).perpetualIncome
        = 0 := by
      show (calculatePlan2 (withContribution lowReturnInputs 60000)).netEPIGAfterLoanPayoff
        * _ = 0
      rw [plan2_netEPIG_eq _ (by decide)]
      simp [plan2NetFactor, growthSum, withContribution, lowReturnInputs, defaultInputs]
      norm_num
    rw [e1, e2] at h
    exact lt_irrefl _ h
  · norm_num [ValidInputs, zeroPayoutInputs, defaultInputs]
  · norm_num [zeroPayoutInputs, defaultInputs]
  · rintro ⟨h, -⟩
    have e1 : (calculatePlan1 zeroPayoutInputs).perpetualIncome = 0 := by
      show _ * (zeroPayoutInputs.perpetualRate / 100) = 0
      simp [zeroPayoutInputs]
    have e2 : (calculatePlan1 (withContribution zeroPayoutInputs 60000)).perpetualIncome
        = 0 := by
      show _ * (zeroPayoutInputs.perpetualRate / 100) = 0
      simp [zeroPayoutInputs]
    rw [e1, e2] at h
    exact lt_irrefl _ h
  · norm_num [ValidInputs, highTaxInputs, defaultInputs]
  · norm_num [highTaxInputs, defaultInputs]
  · rintro ⟨h, -⟩
    have e1 : (calculatePlan1 highTaxInputs).perpetualIncome =
        (calculatePlan1 highTaxInputs).afterTaxCapital * 0.70 *
          (highTaxInputs.perpetualRate / 100) := rfl
    have e2 : (calculatePlan1 (withContribution highTaxInputs 60000)).perpetualIncome =
        (calculatePlan1 (withContribution highTaxInputs 60000)).afterTaxCapital * 0.70 *
          (highTaxInputs.perpetualRate / 100) := rfl
    rw [e1, e2, plan1_afterTaxCapital_eq _ (by decide),
      plan1_afterTaxCapital_eq _ (by decide)] at h
    simp [plan1CapitalFactor, growthSum, withContribution, highTaxInputs, defaultInputs] at h
    norm_num at h

/-- C4, amended: for two valid inputs (all rates ≥ 0, integer timeHorizon ≥ 1) that
differ only in annualContribution, the second strictly larger, and with
perpetualRate > 0: calculatePlan1's perpetualIncome is strictly larger for the second
input when taxRate ≤ 100; calculatePlan2's perpetualIncome is strictly larger when the
second input's netEPIGAfterLoanPayoff is positive (the clamp at 0 is not active), and
is never smaller. -/
theorem perpetualIncome_strictMono_contribution (inputs : Inputs) (a2 : ℚ)
    (hv : ValidInputs inputs) (ha : inputs.annualContribution < a2)
    (hp : 0 < inputs.perpetualRate) :
    (inputs.taxRate ≤ 100 →
      (calculatePlan1 inputs).perpetualIncome <
        (calculatePlan1 (withContribution inputs a2)).perpetualIncome) ∧
    (0 < (calculatePlan2 (withContribution inputs a2)).netEPIGAfterLoanPayoff →
      (calculatePlan2 inputs).perpetualIncome <
        (calculatePlan2 (withContribution inputs a2)).perpetualIncome) ∧
    (calculatePlan2 inputs).perpetualIncome ≤
      (calculatePlan2 (withContribution inputs a2)).perpetualIncome := by
  obtain ⟨-, hn, ha0, hd, ht0, -, -, -, -, -⟩ := hv
  have hn0 : 0 ≤ inputs.timeHorizon := by omega
  have hn0' : 0 ≤ (withContribution inputs a2).timeHorizon := hn0
  have hr : 0 < inputs.perpetualRate / 100 := div_pos hp (by norm_num)
  have e1 : (calculatePlan2 inputs).perpetualIncome =
      (calculatePlan2 inputs).netEPIGAfterLoanPayoff * (inputs.perpetualRate / 100) := rfl
  have e2 : (calculatePlan2 (withContribution inputs a2)).perpetualIncome =
      (calculatePlan2 (withContribution inputs a2)).netEPIGAfterLoanPayoff *
        (inputs.perpetualRate / 100) := rfl
  have hK : plan2NetFactor (withContribution inputs a2) = plan2NetFactor inputs := rfl
  have hA : (withContribution inputs a2).annualContribution = a2 := rfl
  refine ⟨?_, ?_, ?_⟩
  · intro ht
    have hF := plan1CapitalFactor_pos inputs hn hd ht0 ht
    have hF' : plan1CapitalFactor (withContribution inputs a2) =
        plan1CapitalFactor inputs := rfl
    have p1 : (calculatePlan1 inputs).perpetualIncome =
        (calculatePlan1 inputs).afterTaxCapital * 0.70 * (inputs.perpetualRate / 100) := rfl
    have p2 : (calculatePlan1 (withContribution inputs a2)).perpetualIncome =
        (calculatePlan1 (withContribution inputs a2)).afterTaxCapital * 0.70 *
          (inputs.perpetualRate / 100) := rfl
    rw [p1, p2, plan1_afterTaxCapital_eq inputs hn0,
      plan1_afterTaxCapital_eq (withContribution inputs a2) hn0', hF', hA]
    have hc : 0 < plan1CapitalFactor inputs * 0.70 * (inputs.perpetualRate / 100) :=
      mul_pos (mul_pos hF (by norm_num)) hr
    have key := mul_lt_mul_of_pos_right ha hc
    linarith
  · intro hpos
    rw [e1, e2]
    rw [plan2_netEPIG_eq (withContribution inputs a2) hn0', hK, hA] at hpos ⊢
    rw [plan2_netEPIG_eq inputs hn0]
    exact mul_lt_mul_of_pos_right
      (max_mul_lt_max_mul _ _ _ ha0 ha hpos) hr
  · rw [e1, e2, plan2_netEPIG_eq (withContribution inputs a2) hn0', hK, hA,
      plan2_netEPIG_eq inputs hn0]
    exact mul_le_mul_of_nonneg_right (max_mul_le_max_mul _ _ _ ha0 ha) hr.le

/-- Witness for C4 (amended): at the documented defaults, raising the contribution from
50000 to 60000 raises both plans' perpetualIncome. -/
theorem perpetualIncome_strictMono_contribution_witness :
    ValidInputs defaultInputs ∧ defaultInputs.annualContribution < 60000 ∧
      0 < defaultInputs.perpetualRate ∧
      (calculatePlan1 defaultInputs).perpetualIncome <
        (calculatePlan1 (withContribution defaultInputs 60000)).perpetualIncome ∧
      (calculatePlan2 defaultInputs).perpetualIncome <
        (calculatePlan2 (withContribution defaultInputs 60000)).perpetualIncome := by
  have hv : ValidInputs defaultInputs := by norm_num [ValidInputs, defaultInputs]
  have ha : defaultInputs.annualContribution < 60000 := by norm_num [defaultInputs]
  have hp : 0 < defaultInputs.perpetualRate := by norm_num [defaultInputs]
  have h := perpetualIncome_strictMono_contribution defaultInputs 60000 hv ha hp
  refine ⟨hv, ha, hp, h.1 (by norm_num [defaultInputs]), h.2.1 ?_⟩
  rw [plan2_netEPIG_eq _ (by decide), plan2NetFactor_default_60000]
  norm_num [withContribution]

/-- C5 as stated fails for Plan 1: with a taxRate of 200 (a valid, non-negative rate)
the liquidity returned by calculatePlan1 does not grow when the contribution rises from
50000 to 60000. -/
theorem liquidity_not_strictMono :
    ValidInputs highTaxInputs ∧ highTaxInputs.annualContribution < 60000 ∧
      ¬ ((calculatePlan1 highTaxInputs).liquidity <
            (calculatePlan1 (withContribution highTaxInputs 60000)).liquidity ∧
          (calculatePlan2 highTaxInputs).totalLiquidity <
            (calculatePlan2 (withContribution highTaxInputs 60000)).totalLiquidity) := by
  refine ⟨?_, ?_, ?_⟩
  · norm_num [ValidInputs, highTaxInputs, defaultInputs]
  · norm_num [highTaxInputs, defaultInputs]
  · rintro ⟨h, -⟩
    have e1 : (calculatePlan1 highTaxInputs).liquidity =
        (calculatePlan1 highTaxInputs).afterTaxCapital * 0.30 := rfl
    have e2 : (calculatePlan1 (withContribution highTaxInputs 60000)).liquidity =
        (calculatePlan1 (withContribution highTaxInputs 60000)).afterTaxCapital * 0.30 := rfl
    rw [e1, e2, plan1_afterTaxCapital_eq _ (by decide),
      plan1_afterTaxCapital_eq _ (by decide)] at h
    simp [plan1CapitalFactor, growthSum, withContribution, highTaxInputs, defaultInputs] at h
    norm_num at h

/-- C5, amended: for two valid inputs (all rates ≥ 0, integer timeHorizon ≥ 1) that
differ only in annualContribution, the second strictly larger, calculatePlan2's
totalLiquidity is strictly larger for the second input, and calculatePlan1's liquidity
is strictly larger for the second input when taxRate ≤ 100. -/
theorem liquidity_strictMono_contribution (inputs : Inputs) (a2 : ℚ)
    (hv : ValidInputs inputs) (ha : inputs.annualContribution < a2) :
    (inputs.taxRate ≤ 100 →
      (calculatePlan1 inputs).liquidity <
        (calculatePlan1 (withContribution inputs a2)).liquidity) ∧
    (calculatePlan2 inputs).totalLiquidity <
      (calculatePlan2 (withContribution inputs a2)).totalLiquidity := by
  obtain ⟨-, hn, -, hd, ht0, -, hcv, -, -, -⟩ := hv
  have hn0 : 0 ≤ inputs.timeHorizon := by omega
  have hn0' : 0 ≤ (withContribution inputs a2).timeHorizon := hn0
  have hA : (withContribution inputs a2).annualContribution = a2 := rfl
  constructor
  · intro ht
    have hF := plan1CapitalFactor_pos inputs hn hd ht0 ht
    have hF' : plan1CapitalFactor (withContribution inputs a2) =
        plan1CapitalFactor inputs := rfl
    have p1 : (calculatePlan1 inputs).liquidity =
        (calculatePlan1 inputs).afterTaxCapital * 0.30 := rfl
    have p2 : (calculatePlan1 (withContribution inputs a2)).liquidity =
        (calculatePlan1 (withContribution inputs a2)).afterTaxCapital * 0.30 := rfl
    rw [p1, p2, plan1_afterTaxCapital_eq inputs hn0,
      plan1_afterTaxCapital_eq (withContribution inputs a2) hn0', hF', hA]
    have hc : 0 < plan1CapitalFactor inputs * 0.30 := mul_pos hF (by norm_num)
    have key := mul_lt_mul_of_pos_right ha hc
    linarith
  · rw [plan2_cashValue_eq, plan2_cashValue_eq]
    have hS := growthSum_ge inputs.contributionTiming (1 + inputs.cvGrowthRate / 100)
      (by linarith [div_nonneg hcv (by norm_num : (0 : ℚ) ≤ 100)]) inputs.timeHorizon.toNat
    have hN : (1 : ℚ) ≤ (inputs.timeHorizon.toNat : ℚ) := by
      have : 1 ≤ inputs.timeHorizon.toNat := by omega
      exact_mod_cast this
    exact mul_lt_mul_of_pos_right ha (by linarith)

/-- Witness for C5 (amended): at the documented defaults, raising the contribution from
50000 to 60000 raises Plan 1's liquidity and Plan 2's totalLiquidity. -/
theorem liquidity_strictMono_contribution_witness :
    ValidInputs defaultInputs ∧ defaultInputs.annualContribution < 60000 ∧
      (calculatePlan1 defaultInputs).liquidity <
        (calculatePlan1 (withContribution defaultInputs 60000)).liquidity ∧
      (calculatePlan2 defaultInputs).totalLiquidity <
        (calculatePlan2 (withContribution defaultInputs 60000)).totalLiquidity := by
  have hv : ValidInputs defaultInputs := by norm_num [ValidInputs, defaultInputs]
  have ha : defaultInputs.annualContribution < 60000 := by norm_num [defaultInputs]
  have h := liquidity_strictMono_contribution defaultInputs 60000 hv ha
  exact ⟨hv, ha, h.1 (by norm_num [defaultInputs]), h.2⟩

/-! ## Long-term comparison table: shape -/

theorem generateComparisonTable_eq (plan1 : Plan1Result) (plan2 : Plan2Result)
    (inputs : Inputs) :
    generateComparisonTable plan1 plan2 inputs =
      [comparisonRow plan1 plan2 inputs 0, comparisonRow plan1 plan2 inputs 10,
        comparisonRow plan1 plan2 inputs 20, comparisonRow plan1 plan2 inputs 30,
        comparisonRow plan1 plan2 inputs 40] := by
  simp [generateComparisonTable, projectionYears]

/-! ## Plan 2: income, liquidity and legacy -/

/-- C11: for every input calculatePlan2 takes perpetualIncome from the net leveraged
portfolio only: it is netEPIGAfterLoanPayoff * perpetualRate/100; when
epigAfterTax < loanBalance both netEPIGAfterLoanPayoff and perpetualIncome are 0 (the
function still returns), otherwise perpetualIncome is
(epigAfterTax - loanBalance) * perpetualRate/100; and cashValue has no part in it:
changing cvGrowthRate leaves perpetualIncome unchanged. -/
theorem perpetualIncome_from_net_EPIG (inputs : Inputs) :
    (calculatePlan2 inputs).annuitizableAmount =
        (calculatePlan2 inputs).netEPIGAfterLoanPayoff ∧
      (calculatePlan2 inputs).perpetualIncome =
        (calculatePlan2 inputs).netEPIGAfterLoanPayoff * (inputs.perpetualRate / 100) ∧
      ((calculatePlan2 inputs).epigAfterTax < (calculatePlan2 inputs).loanBalance →
        (calculatePlan2 inputs).netEPIGAfterLoanPayoff = 0 ∧
          (calculatePlan2 inputs).perpetualIncome = 0) ∧
      (¬ (calculatePlan2 inputs).epigAfterTax < (calculatePlan2 inputs).loanBalance →
        (calculatePlan2 inputs).perpetualIncome =
          ((calculatePlan2 inputs).epigAfterTax - (calculatePlan2 inputs).loanBalance) *
            (inputs.perpetualRate / 100)) ∧
      ∀ c : ℚ, (calculatePlan2 { inputs with cvGrowthRate := c }).perpetualIncome =
        (calculatePlan2 inputs).perpetualIncome := by
  have hnet : (calculatePlan2 inputs).netEPIGAfterLoanPayoff =
      max 0 ((calculatePlan2 inputs).epigAfterTax - (calculatePlan2 inputs).loanBalance) :=
    rfl
  have hinc : (calculatePlan2 inputs).perpetualIncome =
      (calculatePlan2 inputs).netEPIGAfterLoanPayoff * (inputs.perpetualRate / 100) := rfl
  refine ⟨rfl, hinc, ?_, ?_, ?_⟩
  · intro hlt
    have h0 : (calculatePlan2 inputs).netEPIGAfterLoanPayoff = 0 := by
      rw [hnet]
      exact max_eq_left (by linarith)
    exact ⟨h0, by rw [hinc, h0, zero_mul]⟩
  · intro hge
    rw [hinc, hnet, max_eq_right (by linarith [not_lt.mp hge])]
  · intro c
    simp only [calculatePlan2, plan2Loop_epigValue, plan2Loop_loanBalance,
      plan2Loop_cumulativeInterest]

/-- Witness for C11: with a 5 % return against a 6 % loan the after-tax leveraged
portfolio is below the loan balance, and both the net portfolio and the income are 0. -/
theorem perpetualIncome_from_net_EPIG_witness :
    (calculatePlan2 lowReturnInputs).epigAfterTax <
        (calculatePlan2 lowReturnInputs).loanBalance ∧
      (calculatePlan2 lowReturnInputs).netEPIGAfterLoanPayoff = 0 ∧
      (calculatePlan2 lowReturnInputs).perpetualIncome = 0 := by
  have hlt : (calculatePlan2 lowReturnInputs).epigAfterTax <
      (calculatePlan2 lowReturnInputs).loanBalance := by
    simp only [calculatePlan2, plan2Loop_epigValue, plan2Loop_loanBalance,
      plan2Loop_cumulativeInterest]
    simp [growthSum, lowReturnInputs, defaultInputs]
    norm_num
  exact ⟨hlt, (perpetualIncome_from_net_EPIG lowReturnInputs).2.2.1 hlt⟩

/-- C12: calculatePlan2's totalLiquidity is its terminal cashValue and nothing else:
two inputs that agree on timeHorizon, annualContribution, contributionTiming and
cvGrowthRate get the same totalLiquidity, whatever their borrowPercent, loanRate,
directCAGR, taxRate, perpetualRate and deathBenefit. -/
theorem totalLiquidity_is_cashValue (i1 i2 : Inputs)
    (hn : i1.timeHorizon = i2.timeHorizon)
    (ha : i1.annualContribution = i2.annualContribution)
    (ht : i1.contributionTiming = i2.contributionTiming)
    (hc : i1.cvGrowthRate = i2.cvGrowthRate) :
    (calculatePlan2 i1).totalLiquidity = (calculatePlan2 i1).cashValue ∧
      (calculatePlan2 i1).cashValue = (plan2Loop i1 i1.timeHorizon.toNat).cashValue ∧
      (calculatePlan2 i1).totalLiquidity = (calculatePlan2 i2).totalLiquidity := by
  refine ⟨rfl, rfl, ?_⟩
  rw [plan2_cashValue_eq, plan2_cashValue_eq, hn, ha, ht, hc]

/-- Witness for C12: the documented defaults and an input that differs from them in
borrowPercent, loanRate, directCAGR, taxRate, perpetualRate and deathBenefit. -/
theorem totalLiquidity_is_cashValue_witness :
    defaultInputs.timeHorizon = otherLoanInputs.timeHorizon ∧
      defaultInputs.annualContribution = otherLoanInputs.annualContribution ∧
      defaultInputs.contributionTiming = otherLoanInputs.contributionTiming ∧
      defaultInputs.cvGrowthRate = otherLoanInputs.cvGrowthRate ∧
      defaultInputs.borrowPercent ≠ otherLoanInputs.borrowPercent ∧
      (calculatePlan2 defaultInputs).totalLiquidity =
        (calculatePlan2 otherLoanInputs).totalLiquidity :=
  ⟨rfl, rfl, rfl, rfl, by norm_num [defaultInputs, otherLoanInputs],
    (totalLiquidity_is_cashValue defaultInputs otherLoanInputs rfl rfl rfl rfl).2.2⟩

/-- C13: for every input calculatePlan2 returns grossDeathBenefit = netDeathBenefit =
deathBenefit and netLegacy = deathBenefit - annualContribution * timeHorizon; the loan
reduces none of them: they are the same for any borrowPercent, loanRate and
directCAGR. -/
theorem deathBenefit_not_reduced_by_loan (inputs : Inputs) :
    (calculatePlan2 inputs).grossDeathBenefit = inputs.deathBenefit ∧
      (calculatePlan2 inputs).netDeathBenefit = inputs.deathBenefit ∧
      (calculatePlan2 inputs).netLegacy =
        inputs.deathBenefit - inputs.annualContribution * (inputs.timeHorizon : ℚ) ∧
      ∀ b l d : ℚ,
        (calculatePlan2
            { inputs with borrowPercent := b, loanRate := l, directCAGR := d
            }).grossDeathBenefit = (calculatePlan2 inputs).grossDeathBenefit ∧
          (calculatePlan2
            { inputs with borrowPercent := b, loanRate := l, directCAGR := d
            }).netDeathBenefit = (calculatePlan2 inputs).netDeathBenefit ∧
          (calculatePlan2
            { inputs with borrowPercent := b, loanRate := l, directCAGR := d
            }).netLegacy = (calculatePlan2 inputs).netLegacy :=
  ⟨rfl, rfl, rfl, fun _ _ _ => ⟨rfl, rfl, rfl⟩⟩

/-! ## Long-term comparison table: rows -/

/-- C14: for every input the rows built by generateComparisonTable have the ages
currentAge + timeHorizon + offset for the offsets 0, 10, 20, 30, 40, in that order, so
the age strictly increases from each row to the next. -/
theorem comparison_ages (plan1 : Plan1Result) (plan2 : Plan2Result) (inputs : Inputs) :
    (generateComparisonTable plan1 plan2 inputs).map ComparisonRow.age =
        [inputs.currentAge + inputs.timeHorizon + 0,
          inputs.currentAge + inputs.timeHorizon + 10,
          inputs.currentAge + inputs.timeHorizon + 20,
          inputs.currentAge + inputs.timeHorizon + 30,
          inputs.currentAge + inputs.timeHorizon + 40] ∧
      List.Chain' (fun a b : ComparisonRow => a.age < b.age)
        (generateComparisonTable plan1 plan2 inputs) := by
  rw [generateComparisonTable_eq]
  constructor
  · simp only [List.map, comparisonRow]
    simp only [List.cons.injEq, and_true]
    refine ⟨?_, ?_, ?_, ?_, ?_⟩ <;> push_cast <;> ring
  · simp only [List.chain'_cons, List.chain'_singleton, comparisonRow, and_true]
    refine ⟨?_, ?_, ?_, ?_⟩ <;> push_cast <;> omega

/-- C15: for every pair of plan results and every input, generateComparisonTable
builds exactly five rows, in order, whose year fields are timeHorizon + 0, + 10, + 20,
+ 30 and + 40. -/
theorem comparison_years (plan1 : Plan1Result) (plan2 : Plan2Result) (inputs : Inputs) :
    (generateComparisonTable plan1 plan2 inputs).length = 5 ∧
      (generateComparisonTable plan1 plan2 inputs).map ComparisonRow.year =
        [inputs.timeHorizon + 0, inputs.timeHorizon + 10, inputs.timeHorizon + 20,
          inputs.timeHorizon + 30, inputs.timeHorizon + 40] := by
  rw [generateComparisonTable_eq]
  constructor
  · rfl
  · simp only [List.map, comparisonRow]
    simp only [List.cons.injEq, and_true]
    refine ⟨?_, ?_, ?_, ?_, ?_⟩ <;> push_cast <;> ring

/-- C16: in the rows of generateComparisonTable, Plan 2's projected cash value (also
reported as plan2LiquidityAlive) and projected death benefit follow the three-tier
curve from plan2.cashValue with rates 6.88/5.24/4.61 % and from plan2.netDeathBenefit
with rates 3.00/2.76/2.93 %: S at offset 0, S*(1+r1)^10 at 10, S*(1+r1)^10*(1+r2)^10 at
20, S*(1+r1)^10*(1+r2)^10*(1+r3)^10 at 30 and S*(1+r1)^10*(1+r2)^10*(1+r3)^20 at 40. -/
theorem comparison_three_tier (plan1 : Plan1Result) (plan2 : Plan2Result)
    (inputs : Inputs) :
    (generateComparisonTable plan1 plan2 inputs).map ComparisonRow.plan2CashValue =
        [plan2.cashValue,
          plan2.cashValue * (1 + 6.88 / 100) ^ 10,
          plan2.cashValue * (1 + 6.88 / 100) ^ 10 * (1 + 5.24 / 100) ^ 10,
          plan2.cashValue * (1 + 6.88 / 100) ^ 10 * (1 + 5.24 / 100) ^ 10 *
            (1 + 4.61 / 100) ^ 10,
          plan2.cashValue * (1 + 6.88 / 100) ^ 10 * (1 + 5.24 / 100) ^ 10 *
            (1 + 4.61 / 100) ^ 20] ∧
      (generateComparisonTable plan1 plan2 inputs).map ComparisonRow.plan2LiquidityAlive =
        (generateComparisonTable plan1 plan2 inputs).map ComparisonRow.plan2CashValue ∧
      (generateComparisonTable plan1 plan2 inputs).map ComparisonRow.plan2DeathBenefit =
        [plan2.netDeathBenefit,
          plan2.netDeathBenefit * (1 + 3.00 / 100) ^ 10,
          plan2.netDeathBenefit * (1 + 3.00 / 100) ^ 10 * (1 + 2.76 / 100) ^ 10,
          plan2.netDeathBenefit * (1 + 3.00 / 100) ^ 10 * (1 + 2.76 / 100) ^ 10 *
            (1 + 2.93 / 100) ^ 10,
          plan2.netDeathBenefit * (1 + 3.00 / 100) ^ 10 * (1 + 2.76 / 100) ^ 10 *
            (1 + 2.93 / 100) ^ 20] := by
  rw [generateComparisonTable_eq]
  refine ⟨?_, rfl, ?_⟩
  · simp [comparisonRow, plan2CashValueRate_0_10, plan2CashValueRate_10_20,
      plan2CashValueRate_20_plus]
  · simp [comparisonRow, plan2DeathBenefitRate_0_10, plan2DeathBenefitRate_10_20,
      plan2DeathBenefitRate_20_plus]

/-- C17: in the row of generateComparisonTable at offset y, Plan 1's liquidity is
plan1.liquidity * (1 + 5*(1 - taxRate/100)/100)^y and Plan 2's net leveraged-portfolio
value is plan2.netEPIGAfterLoanPayoff * (1 + 5*(1 - taxRate/100)/100)^y: the callback
uses this one after-tax bond rate for every offset y, and the five rows pair with the
offsets 0, 10, 20, 30, 40 in order. -/
theorem comparison_bond_growth (plan1 : Plan1Result) (plan2 : Plan2Result)
    (inputs : Inputs) :
    (∀ y : Nat,
      (comparisonRow plan1 plan2 inputs y).plan1Liquidity =
          plan1.liquidity * (1 + 5 * (1 - inputs.taxRate / 100) / 100) ^ y ∧
        (comparisonRow plan1 plan2 inputs y).plan2NetEPIG =
          plan2.netEPIGAfterLoanPayoff * (1 + 5 * (1 - inputs.taxRate / 100) / 100) ^ y) ∧
    List.Forall₂
      (fun (y : Nat) (row : ComparisonRow) =>
        row.plan1Liquidity =
            plan1.liquidity * (1 + 5 * (1 - inputs.taxRate / 100) / 100) ^ y ∧
          row.plan2NetEPIG =
            plan2.netEPIGAfterLoanPayoff * (1 + 5 * (1 - inputs.taxRate / 100) / 100) ^ y)
      [0, 10, 20, 30, 40] (generateComparisonTable plan1 plan2 inputs) := by
  have hrow : ∀ y : Nat,
      (comparisonRow plan1 plan2 inputs y).plan1Liquidity =
          plan1.liquidity * (1 + 5 * (1 - inputs.taxRate / 100) / 100) ^ y ∧
        (comparisonRow plan1 plan2 inputs y).plan2NetEPIG =
          plan2.netEPIGAfterLoanPayoff * (1 + 5 * (1 - inputs.taxRate / 100) / 100) ^ y :=
    fun _ => ⟨rfl, rfl⟩
  refine ⟨hrow, ?_⟩
  rw [generateComparisonTable_eq]
  simp only [List.forall₂_cons, List.Forall₂.nil, and_true]
  exact ⟨hrow 0, hrow 10, hrow 20, hrow 30, hrow 40⟩

theorem plan2_default_netEPIG :
    (calculatePlan2 defaultInputs).netEPIGAfterLoanPayoff = 447480.52128 := by
  have hE : (plan2Loop defaultInputs defaultInputs.timeHorizon.toNat).epigValue =
      1168140.69504 := plan2Loop_default_epigValue
  have hL : (plan2Loop defaultInputs defaultInputs.timeHorizon.toNat).loanBalance =
      450000 := plan2Loop_default_loanBalance
  have hI : (plan2Loop defaultInputs defaultInputs.timeHorizon.toNat).cumulativeInterest =
      121500 := plan2Loop_default_cumulativeInterest
  simp only [calculatePlan2, hE, hL, hI]
  norm_num [defaultInputs]

/-- C18: in every row of generateComparisonTable, Plan 2's legacy at death is that
row's projected death benefit plus that row's projected net leveraged-portfolio value.
The column is therefore, from D = plan2.netDeathBenefit and N =
plan2.netEPIGAfterLoanPayoff with g = 1 + 5*(1 - taxRate/100)/100: D + N at offset 0,
D*1.03^10 + N*g^10 at 10, D*1.03^10*1.0276^10 + N*g^20 at 20,
D*1.03^10*1.0276^10*1.0293^10 + N*g^30 at 30 and D*1.03^10*1.0276^10*1.0293^20 + N*g^40
at 40.  The projected cash value is not added: the column is the same for any
plan2.cashValue.  On the documented defaults the first row's legacy is
750000 + 447480.52128 = 1197480.52128. -/
theorem comparison_legacy_at_death (plan1 : Plan1Result) (plan2 : Plan2Result)
    (inputs : Inputs) :
    List.Forall
        (fun row : ComparisonRow =>
          row.plan2LegacyAtDeath = row.plan2DeathBenefit + row.plan2NetEPIG)
        (generateComparisonTable plan1 plan2 inputs) ∧
      (∀ c : ℚ,
        (generateComparisonTable plan1 { plan2 with cashValue := c } inputs).map
            ComparisonRow.plan2LegacyAtDeath =
          (generateComparisonTable plan1 plan2 inputs).map
            ComparisonRow.plan2LegacyAtDeath) ∧
      (generateComparisonTable plan1 plan2 inputs).map ComparisonRow.plan2LegacyAtDeath =
        [plan2.netDeathBenefit + plan2.netEPIGAfterLoanPayoff,
          plan2.netDeathBenefit * (1 + 3.00 / 100) ^ 10 +
            plan2.netEPIGAfterLoanPayoff *
              (1 + 5 * (1 - inputs.taxRate / 100) / 100) ^ 10,
          plan2.netDeathBenefit * (1 + 3.00 / 100) ^ 10 * (1 + 2.76 / 100) ^ 10 +
            plan2.netEPIGAfterLoanPayoff *
              (1 + 5 * (1 - inputs.taxRate / 100) / 100) ^ 20,
          plan2.netDeathBenefit * (1 + 3.00 / 100) ^ 10 * (1 + 2.76 / 100) ^ 10 *
              (1 + 2.93 / 100) ^ 10 +
            plan2.netEPIGAfterLoanPayoff *
              (1 + 5 * (1 - inputs.taxRate / 100) / 100) ^ 30,
          plan2.netDeathBenefit * (1 + 3.00 / 100) ^ 10 * (1 + 2.76 / 100) ^ 10 *
              (1 + 2.93 / 100) ^ 20 +
            plan2.netEPIGAfterLoanPayoff *
              (1 + 5 * (1 - inputs.taxRate / 100) / 100) ^ 40] ∧
      (∀ y : Nat,
        (comparisonRow plan1 plan2 inputs y).plan2LegacyAtDeath =
          (comparisonRow plan1 plan2 inputs y).plan2DeathBenefit +
            plan2.netEPIGAfterLoanPayoff *
              (1 + 5 * (1 - inputs.taxRate / 100) / 100) ^ y) ∧
      ((generateComparisonTable (calculatePlan1 defaultInputs)
          (calculatePlan2 defaultInputs) defaultInputs).map
            ComparisonRow.plan2LegacyAtDeath).head? = some 1197480.52128 := by
  refine ⟨?_, ?_, ?_, fun _ => rfl, ?_⟩
  · rw [generateComparisonTable_eq]
    simp only [List.forall_cons, List.Forall, and_true]
    exact ⟨rfl, rfl, rfl, rfl, rfl⟩
  · intro c
    rw [generateComparisonTable_eq, generateComparisonTable_eq]
    rfl
  · rw [generateComparisonTable_eq]
    simp [comparisonRow, plan2DeathBenefitRate_0_10, plan2DeathBenefitRate_10_20,
      plan2DeathBenefitRate_20_plus, plan1BondRate]
  · rw [generateComparisonTable_eq]
    have hD : (calculatePlan2 defaultInputs).netDeathBenefit = 750000 := rfl
    simp only [List.map, List.head?, comparisonRow, if_pos, plan2_default_netEPIG, hD,
      pow_zero, mul_one]
    norm_num

/-- C19: in every row of generateComparisonTable, plan1Income is plan1.perpetualIncome
and plan2Income is plan2.perpetualIncome: the income is the same at all five
checkpoints, and the callback gives it for every offset. -/
theorem comparison_income_flat (plan1 : Plan1Result) (plan2 : Plan2Result)
    (inputs : Inputs) :
    List.Forall
        (fun row : ComparisonRow =>
          row.plan1Income = plan1.perpetualIncome ∧ row.plan2Income = plan2.perpetualIncome)
        (generateComparisonTable plan1 plan2 inputs) ∧
      ∀ y : Nat,
        (comparisonRow plan1 plan2 inputs y).plan1Income = plan1.perpetualIncome ∧
          (comparisonRow plan1 plan2 inputs y).plan2Income = plan2.perpetualIncome := by
  constructor
  · rw [generateComparisonTable_eq]
    simp only [List.forall_cons, List.Forall, and_true]
    exact ⟨⟨rfl, rfl⟩, ⟨rfl, rfl⟩, ⟨rfl, rfl⟩, ⟨rfl, rfl⟩, ⟨rfl, rfl⟩⟩
  · exact fun _ => ⟨rfl, rfl⟩

/-- C20: Plan 1's legacy is zero everywhere: calculatePlan1 returns netLegacy = 0 for
every input, and every row of generateComparisonTable has plan1Legacy = 0, whatever
plan results it is given. -/
theorem plan1_legacy_zero (plan1 : Plan1Result) (plan2 : Plan2Result) (inputs : Inputs) :
    (calculatePlan1 inputs).netLegacy = 0 ∧
      List.Forall (fun row : ComparisonRow => row.plan1Legacy = 0)
        (generateComparisonTable plan1 plan2 inputs) ∧
      List.Forall (fun row : ComparisonRow => row.plan1Legacy = 0)
        (generateComparisonTable (calculatePlan1 inputs) (calculatePlan2 inputs)
          inputs) := by
  refine ⟨rfl, ?_, ?_⟩
  · rw [generateComparisonTable_eq]
    simp only [List.forall_cons, List.Forall, and_true]
    exact ⟨rfl, rfl, rfl, rfl, rfl⟩
  · rw [generateComparisonTable_eq]
    simp only [List.forall_cons, List.Forall, and_true]
    exact ⟨rfl, rfl, rfl, rfl, rfl⟩

/-! ## Double arithmetic: rounding error -/

theorem roundHalfEven_abs_sub_le (s : ℚ) : |(roundHalfEven s : ℚ) - s| ≤ 1 / 2 := by
  have h1 : ((⌊s⌋ : Int) : ℚ) ≤ s := Int.floor_le s
  have h2 : s < ((⌊s⌋ : Int) : ℚ) + 1 := Int.lt_floor_add_one s
  unfold roundHalfEven
  simp only
  split_ifs with ha hb hc
  · rw [abs_le]; constructor <;> linarith
  · rw [abs_le]; push_cast; constructor <;> linarith
  · rw [abs_le]; constructor <;> linarith
  · rw [abs_le]; push_cast; constructor <;> linarith

theorem roundHalfEven_eq_of_near (s : ℚ) (m : Int) (h : |s - (m : ℚ)| < 1 / 2) :
    roundHalfEven s = m := by
  rw [abs_lt] at h
  obtain ⟨h1, h2⟩ := h
  unfold roundHalfEven
  simp only
  rcases le_or_lt (m : ℚ) s with hle | hlt
  · have hf : ⌊s⌋ = m := by
      rw [Int.floor_eq_iff]; constructor <;> linarith
    rw [hf, if_pos (by linarith)]
  · have hf : ⌊s⌋ = m - 1 := by
      rw [Int.floor_eq_iff]; push_cast; constructor <;> linarith
    rw [hf]
    push_cast
    rw [if_neg (by linarith), if_pos (by linarith)]
    ring

theorem roundHalfEven_tie_down (m : Int) (hm : m % 2 = 0) :
    roundHalfEven ((m : ℚ) + 1 / 2) = m := by
  have hf : ⌊(m : ℚ) + 1 / 2⌋ = m := by
    rw [Int.floor_eq_iff]; constructor <;> linarith
  unfold roundHalfEven
  simp only
  rw [hf, if_neg (by linarith), if_neg (by linarith), if_pos hm]

theorem roundHalfEven_tie_up (m : Int) (hm : m % 2 = 0) :
    roundHalfEven ((m : ℚ) - 1 / 2) = m := by
  have hf : ⌊(m : ℚ) - 1 / 2⌋ = m - 1 := by
    rw [Int.floor_eq_iff]; push_cast; constructor <;> linarith
  have hodd : ¬ (m - 1) % 2 = 0 := by omega
  unfold roundHalfEven
  simp only
  rw [hf]
  push_cast
  rw [if_neg (by linarith), if_neg (by linarith), if_neg hodd]
  ring

theorem log_eq_of_bounds (x : ℚ) (k : Int) (hx : 0 < x) (h1 : (2 : ℚ) ^ k ≤ x)
    (h2 : x < (2 : ℚ) ^ (k + 1)) : Int.log 2 x = k := by
  have hb : 1 < 2 := by norm_num
  have a1 : k ≤ Int.log 2 x := (Int.zpow_le_iff_le_log hb hx).mp (by exact_mod_cast h1)
  have a2 : Int.log 2 x < k + 1 := (Int.lt_zpow_iff_log_lt hb hx).mp (by exact_mod_cast h2)
  omega

theorem scaled_bounds (x : ℚ) (hx : 0 < x) :
    (2 : ℚ) ^ (52 : ℕ) ≤ x / (2 : ℚ) ^ (Int.log 2 x - 52) := by
  have hb : 1 < 2 := by norm_num
  have h1 : ((2 : ℕ) : ℚ) ^ Int.log 2 x ≤ x := Int.zpow_log_le_self hb hx
  have hpos : (0 : ℚ) < (2 : ℚ) ^ (Int.log 2 x - 52) := zpow_pos (by norm_num) _
  rw [le_div_iff₀ hpos]
  have : (2 : ℚ) ^ (52 : ℕ) * (2 : ℚ) ^ (Int.log 2 x - 52) = (2 : ℚ) ^ Int.log 2 x := by
    rw [← zpow_natCast, ← zpow_add₀ (by norm_num : (2 : ℚ) ≠ 0)]
    congr 1
    push_cast
    ring
  rw [this]
  exact_mod_cast h1

theorem roundToDouble_abs_sub_le (x : ℚ) :
    |roundToDouble x - x| ≤ |x| * (1 / 2 ^ 53) := by
  unfold roundToDouble
  split_ifs with h0 hneg
  · simp [h0]
  · 
    have hpos : 0 < |x| := abs_pos.mpr h0
    have he : (0 : ℚ) < (2 : ℚ) ^ (Int.log 2 |x| - 52) := zpow_pos (by norm_num) _
    have hs := scaled_bounds |x| hpos
    have hr := roundHalfEven_abs_sub_le (|x| / (2 : ℚ) ^ (Int.log 2 |x| - 52))
    simp only
    set e := (2 : ℚ) ^ (Int.log 2 |x| - 52) with he_def
    set s := |x| / e with hs_def
    have hxs : |x| = s * e := by rw [hs_def]; field_simp
    have hx : x = -(s * e) := by rw [← hxs, abs_of_neg hneg]; ring
    have : -1 * ((roundHalfEven s : ℚ) * e) - x = -(((roundHalfEven s : ℚ) - s) * e) := by
      rw [hx]; ring
    rw [this, abs_neg, abs_mul, abs_of_pos he, hxs]
    have h52 : (2 : ℚ) ^ (52 : ℕ) * (1 / 2 ^ 53) = 1 / 2 := by norm_num
    calc |(roundHalfEven s : ℚ) - s| * e ≤ 1 / 2 * e := by
          exact mul_le_mul_of_nonneg_right hr he.le
      _ = (2 : ℚ) ^ (52 : ℕ) * (1 / 2 ^ 53) * e := by rw [h52]
      _ ≤ s * (1 / 2 ^ 53) * e := by
          apply mul_le_mul_of_nonneg_right _ he.le
          exact mul_le_mul_of_nonneg_right hs (by norm_num)
      _ = s * e * (1 / 2 ^ 53) := by ring
  · have hxpos : 0 < x := lt_of_le_of_ne (not_lt.mp hneg) (Ne.symm h0)
    have hpos : 0 < |x| := abs_pos.mpr h0
    have he : (0 : ℚ) < (2 : ℚ) ^ (Int.log 2 |x| - 52) := zpow_pos (by norm_num) _
    have hs := scaled_bounds |x| hpos
    have hr := roundHalfEven_abs_sub_le (|x| / (2 : ℚ) ^ (Int.log 2 |x| - 52))
    simp only
    set e := (2 : ℚ) ^ (Int.log 2 |x| - 52) with he_def
    set s := |x| / e with hs_def
    have hxs : |x| = s * e := by rw [hs_def]; field_simp
    have hx : x = s * e := by rw [← hxs, abs_of_pos hxpos]
    have : 1 * ((roundHalfEven s : ℚ) * e) - x = ((roundHalfEven s : ℚ) - s) * e := by
      rw [hx]; ring
    rw [this, abs_mul, abs_of_pos he, hxs]
    have h52 : (2 : ℚ) ^ (52 : ℕ) * (1 / 2 ^ 53) = 1 / 2 := by norm_num
    calc |(roundHalfEven s : ℚ) - s| * e ≤ 1 / 2 * e := by
          exact mul_le_mul_of_nonneg_right hr he.le
      _ = (2 : ℚ) ^ (52 : ℕ) * (1 / 2 ^ 53) * e := by rw [h52]
      _ ≤ s * (1 / 2 ^ 53) * e := by
          apply mul_le_mul_of_nonneg_right _ he.le
          exact mul_le_mul_of_nonneg_right hs (by norm_num)
      _ = s * e * (1 / 2 ^ 53) := by ring

theorem roundToDouble_eq (x : ℚ) (k m : Int) (hx : 0 < x) (h1 : (2 : ℚ) ^ k ≤ x)
    (h2 : x < (2 : ℚ) ^ (k + 1)) (hm : roundHalfEven (x / (2 : ℚ) ^ (k - 52)) = m) :
    roundToDouble x = (m : ℚ) * (2 : ℚ) ^ (k - 52) := by
  unfold roundToDouble
  rw [if_neg hx.ne', if_neg (not_lt.mpr hx.le), abs_of_pos hx, log_eq_of_bounds x k hx h1 h2]
  simp only
  rw [hm, one_mul]

theorem roundToDouble_of_exact (x : ℚ) (k m : Int) (hx : 0 < x) (h1 : (2 : ℚ) ^ k ≤ x)
    (h2 : x < (2 : ℚ) ^ (k + 1)) (h : x / (2 : ℚ) ^ (k - 52) = (m : ℚ)) :
    roundToDouble x = x := by
  have hm : roundHalfEven (x / (2 : ℚ) ^ (k - 52)) = m := by
    rw [h]
    exact roundHalfEven_eq_of_near _ _ (by simp)
  rw [roundToDouble_eq x k m hx h1 h2 hm, ← h]
  have hpos : (0 : ℚ) < (2 : ℚ) ^ (k - 52) := zpow_pos (by norm_num) _
  field_simp

theorem roundToDouble_zero : roundToDouble 0 = 0 := by
  simp [roundToDouble]

theorem roundToDouble_small_integers :
    roundToDouble 50000 = 50000 ∧
      roundToDouble 20 = 20 ∧
      roundToDouble 25 = 25 ∧
      roundToDouble 7 = 7 ∧
      roundToDouble 4 = 4 ∧
      roundToDouble 90 = 90 ∧
      roundToDouble 6 = 6 ∧
      roundToDouble 750000 = 750000 ∧
      roundToDouble 150 = 150 := by
  refine ⟨?_, ?_, ?_, ?_, ?_, ?_, ?_, ?_, ?_⟩
  · exact roundToDouble_of_exact 50000 15 (50000 * 2 ^ 37) (by norm_num) (by norm_num)
      (by norm_num) (by norm_num)
  · exact roundToDouble_of_exact 20 4 (20 * 2 ^ 48) (by norm_num) (by norm_num)
      (by norm_num) (by norm_num)
  · exact roundToDouble_of_exact 25 4 (25 * 2 ^ 48) (by norm_num) (by norm_num)
      (by norm_num) (by norm_num)
  · exact roundToDouble_of_exact 7 2 (7 * 2 ^ 50) (by norm_num) (by norm_num)
      (by norm_num) (by norm_num)
  · exact roundToDouble_of_exact 4 2 (4 * 2 ^ 50) (by norm_num) (by norm_num)
      (by norm_num) (by norm_num)
  · exact roundToDouble_of_exact 90 6 (90 * 2 ^ 46) (by norm_num) (by norm_num)
      (by norm_num) (by norm_num)
  · exact roundToDouble_of_exact 6 2 (6 * 2 ^ 50) (by norm_num) (by norm_num)
      (by norm_num) (by norm_num)
  · exact roundToDouble_of_exact 750000 19 (750000 * 2 ^ 33) (by norm_num) (by norm_num)
      (by norm_num) (by norm_num)
  · exact roundToDouble_of_exact 150 7 (150 * 2 ^ 45) (by norm_num) (by norm_num)
      (by norm_num) (by norm_num)

theorem roundToDouble_bounds (x : ℚ) (hx : 0 ≤ x) :
    x * (1 - 1 / 2 ^ 53) ≤ roundToDouble x ∧ roundToDouble x ≤ x * (1 + 1 / 2 ^ 53) := by
  have h := roundToDouble_abs_sub_le x
  rw [abs_of_nonneg hx, abs_le] at h
  constructor <;> linarith [h.1, h.2]

theorem roundToDouble_nonpos (x : ℚ) (hx : x ≤ 0) : roundToDouble x ≤ 0 := by
  have h := roundToDouble_abs_sub_le x
  rw [abs_of_nonpos hx, abs_le] at h
  have : (0 : ℚ) ≤ 1 - 1 / 2 ^ 53 := by norm_num
  nlinarith [h.2]

theorem roundToDouble_le_of_le (x y : ℚ) (hx : 0 ≤ x) (hxy : x ≤ y) :
    roundToDouble x ≤ y * (1 + 1 / 2 ^ 53) := by
  have h := (roundToDouble_bounds x hx).2
  have hu : (0 : ℚ) ≤ 1 + 1 / 2 ^ 53 := by norm_num
  exact le_trans h (mul_le_mul_of_nonneg_right hxy hu)

theorem le_roundToDouble_of_le (x y : ℚ) (hy : 0 ≤ y) (hyx : y ≤ x) :
    y * (1 - 1 / 2 ^ 53) ≤ roundToDouble x := by
  have h := (roundToDouble_bounds x (le_trans hy hyx)).1
  have hu : (0 : ℚ) ≤ 1 - 1 / 2 ^ 53 := by norm_num
  exact le_trans (mul_le_mul_of_nonneg_right hyx hu) h

theorem roundToDouble_pos (x : ℚ) (hx : 0 < x) : 0 < roundToDouble x := by
  have h := (roundToDouble_bounds x hx.le).1
  have hu : (0 : ℚ) < 1 - 1 / 2 ^ 53 := by norm_num
  exact lt_of_lt_of_le (mul_pos hx hu) h

theorem roundToDouble_nonneg (x : ℚ) (hx : 0 ≤ x) : 0 ≤ roundToDouble x := by
  have h := (roundToDouble_bounds x hx).1
  have hu : (0 : ℚ) ≤ 1 - 1 / 2 ^ 53 := by norm_num
  exact le_trans (mul_nonneg hx hu) h

theorem halfCashValue_le (A c : ℚ) (hA : 0 < A) (hc : 0 ≤ c) :
    jsMul (jsMul A (jsAdd 1 (jsDiv c 100))) 0.5 ≤
      A * (1 + c / 100) * (1 + 1 / 2 ^ 53) ^ 4 * 0.5 := by
  unfold jsMul jsAdd jsDiv
  set u : ℚ := 1 / 2 ^ 53 with hu
  have hu0 : 0 < u := by rw [hu]; norm_num
  have hc100 : 0 ≤ c / 100 := div_nonneg hc (by norm_num)
  have hq1 : roundToDouble (c / 100) ≤ c / 100 * (1 + u) :=
    roundToDouble_le_of_le _ _ hc100 le_rfl
  have hq1n : 0 ≤ roundToDouble (c / 100) := roundToDouble_nonneg _ hc100
  have hS : 1 + roundToDouble (c / 100) ≤ (1 + c / 100) * (1 + u) := by nlinarith
  have hq2 : roundToDouble (1 + roundToDouble (c / 100)) ≤ (1 + c / 100) * (1 + u) * (1 + u) :=
    roundToDouble_le_of_le _ _ (by linarith) hS
  have hq2n : 0 ≤ roundToDouble (1 + roundToDouble (c / 100)) :=
    roundToDouble_nonneg _ (by linarith)
  have hY : A * roundToDouble (1 + roundToDouble (c / 100)) ≤
      A * ((1 + c / 100) * (1 + u) * (1 + u)) := mul_le_mul_of_nonneg_left hq2 hA.le
  have hE : roundToDouble (A * roundToDouble (1 + roundToDouble (c / 100))) ≤
      A * ((1 + c / 100) * (1 + u) * (1 + u)) * (1 + u) :=
    roundToDouble_le_of_le _ _ (mul_nonneg hA.le hq2n) hY
  have hEn : 0 ≤ roundToDouble (A * roundToDouble (1 + roundToDouble (c / 100))) :=
    roundToDouble_nonneg _ (mul_nonneg hA.le hq2n)
  have hZ : roundToDouble (A * roundToDouble (1 + roundToDouble (c / 100))) * 0.5 ≤
      A * ((1 + c / 100) * (1 + u) * (1 + u)) * (1 + u) * 0.5 :=
    mul_le_mul_of_nonneg_right hE (by norm_num)
  have hR := roundToDouble_le_of_le _ _ (mul_nonneg hEn (by norm_num)) hZ
  calc roundToDouble (roundToDouble (A * roundToDouble (1 + roundToDouble (c / 100))) * 0.5)
      ≤ A * ((1 + c / 100) * (1 + u) * (1 + u)) * (1 + u) * 0.5 * (1 + u) := hR
    _ = A * (1 + c / 100) * (1 + u) ^ 4 * 0.5 := by ring

theorem halfCashValue_ge (A c : ℚ) (hA : 0 < A) (hc : 0 ≤ c) :
    A * (1 + c / 100) * (1 - 1 / 2 ^ 53) ^ 4 * 0.5 ≤
      jsMul (jsMul A (jsAdd 1 (jsDiv c 100))) 0.5 := by
  unfold jsMul jsAdd jsDiv
  set u : ℚ := 1 / 2 ^ 53 with hu
  have hu0 : 0 < u := by rw [hu]; norm_num
  have hu1 : 0 ≤ 1 - u := by rw [hu]; norm_num
  have hc100 : 0 ≤ c / 100 := div_nonneg hc (by norm_num)
  have hq1 : c / 100 * (1 - u) ≤ roundToDouble (c / 100) :=
    le_roundToDouble_of_le _ _ hc100 le_rfl
  have hS : (1 + c / 100) * (1 - u) ≤ 1 + roundToDouble (c / 100) := by nlinarith
  have hT : 0 ≤ (1 + c / 100) * (1 - u) := mul_nonneg (by linarith) hu1
  have hq2 : (1 + c / 100) * (1 - u) * (1 - u) ≤
      roundToDouble (1 + roundToDouble (c / 100)) :=
    le_roundToDouble_of_le _ _ hT hS
  have hT2 : 0 ≤ (1 + c / 100) * (1 - u) * (1 - u) := mul_nonneg hT hu1
  have hY : A * ((1 + c / 100) * (1 - u) * (1 - u)) ≤
      A * roundToDouble (1 + roundToDouble (c / 100)) := mul_le_mul_of_nonneg_left hq2 hA.le
  have hE : A * ((1 + c / 100) * (1 - u) * (1 - u)) * (1 - u) ≤
      roundToDouble (A * roundToDouble (1 + roundToDouble (c / 100))) :=
    le_roundToDouble_of_le _ _ (mul_nonneg hA.le hT2) hY
  have hZ : A * ((1 + c / 100) * (1 - u) * (1 - u)) * (1 - u) * 0.5 ≤
      roundToDouble (A * roundToDouble (1 + roundToDouble (c / 100))) * 0.5 :=
    mul_le_mul_of_nonneg_right hE (by norm_num)
  have hR := le_roundToDouble_of_le _ _
    (mul_nonneg (mul_nonneg (mul_nonneg hA.le hT2) hu1) (by norm_num)) hZ
  calc A * (1 + c / 100) * (1 - u) ^ 4 * 0.5
      = A * ((1 + c / 100) * (1 - u) * (1 - u)) * (1 - u) * 0.5 * (1 - u) := by ring
    _ ≤ _ := hR

theorem loanEstimate_ge (A b : ℚ) (hA : 0 < A) (hb : 0 ≤ b) :
    A * (b / 100) * (1 - 1 / 2 ^ 53) ^ 2 ≤ jsMul A (jsDiv b 100) := by
  unfold jsMul jsDiv
  set u : ℚ := 1 / 2 ^ 53 with hu
  have hu1 : 0 ≤ 1 - u := by rw [hu]; norm_num
  have hb100 : 0 ≤ b / 100 := div_nonneg hb (by norm_num)
  have hp : b / 100 * (1 - u) ≤ roundToDouble (b / 100) :=
    le_roundToDouble_of_le _ _ hb100 le_rfl
  have hW : A * (b / 100 * (1 - u)) ≤ A * roundToDouble (b / 100) :=
    mul_le_mul_of_nonneg_left hp hA.le
  have hL := le_roundToDouble_of_le _ _ (mul_nonneg hA.le (mul_nonneg hb100 hu1)) hW
  calc A * (b / 100) * (1 - u) ^ 2 = A * (b / 100 * (1 - u)) * (1 - u) := by ring
    _ ≤ _ := hL

theorem loanEstimate_le (A b : ℚ) (hA : 0 < A) (hb : 0 ≤ b) :
    jsMul A (jsDiv b 100) ≤ A * (b / 100) * (1 + 1 / 2 ^ 53) ^ 2 := by
  unfold jsMul jsDiv
  set u : ℚ := 1 / 2 ^ 53 with hu
  have hb100 : 0 ≤ b / 100 := div_nonneg hb (by norm_num)
  have hp : roundToDouble (b / 100) ≤ b / 100 * (1 + u) :=
    roundToDouble_le_of_le _ _ hb100 le_rfl
  have hpn : 0 ≤ roundToDouble (b / 100) := roundToDouble_nonneg _ hb100
  have hW : A * roundToDouble (b / 100) ≤ A * (b / 100 * (1 + u)) :=
    mul_le_mul_of_nonneg_left hp hA.le
  have hL := roundToDouble_le_of_le _ _ (mul_nonneg hA.le hpn) hW
  calc roundToDouble (A * roundToDouble (b / 100)) ≤ A * (b / 100 * (1 + u)) * (1 + u) := hL
    _ = A * (b / 100) * (1 + u) ^ 2 := by ring

theorem comparison_fires_above (A b c : ℚ) (hA : 0 < A) (hc : 0 ≤ c)
    (hb : (50 + c / 2) * (1 + 1 / 2 ^ 50) ≤ b) :
    jsMul (jsMul A (jsAdd 1 (jsDiv c 100))) 0.5 < jsMul A (jsDiv b 100) := by
  have hb0 : 0 ≤ b := by
    have : (0 : ℚ) ≤ (50 + c / 2) * (1 + 1 / 2 ^ 50) := by positivity
    linarith
  have h1 := halfCashValue_le A c hA hc
  have h2 := loanEstimate_ge A b hA hb0
  have hT : 0 < 1 + c / 100 := by positivity
  have hAT : 0 < A * (1 + c / 100) := mul_pos hA hT
  have hnum : (1 + 1 / 2 ^ 53 : ℚ) ^ 4 * 0.5 < (1 + 1 / 2 ^ 50) * (1 - 1 / 2 ^ 53) ^ 2 * 0.5 := by
    norm_num
  have hP : (1 + c / 100) * (1 + 1 / 2 ^ 50) * 0.5 ≤ b / 100 := by
    have : (1 + c / 100) * (1 + 1 / 2 ^ 50) * 0.5 = (50 + c / 2) * (1 + 1 / 2 ^ 50) / 100 := by
      ring
    rw [this]
    exact div_le_div_of_nonneg_right hb (by norm_num)
  have hsq : (0 : ℚ) ≤ (1 - 1 / 2 ^ 53) ^ 2 := sq_nonneg _
  calc jsMul (jsMul A (jsAdd 1 (jsDiv c 100))) 0.5
      ≤ A * (1 + c / 100) * ((1 + 1 / 2 ^ 53) ^ 4 * 0.5) := by rw [← mul_assoc]; exact h1
    _ < A * (1 + c / 100) * ((1 + 1 / 2 ^ 50) * (1 - 1 / 2 ^ 53) ^ 2 * 0.5) :=
        mul_lt_mul_of_pos_left hnum hAT
    _ = A * ((1 + c / 100) * (1 + 1 / 2 ^ 50) * 0.5) * (1 - 1 / 2 ^ 53) ^ 2 := by ring
    _ ≤ A * (b / 100) * (1 - 1 / 2 ^ 53) ^ 2 :=
        mul_le_mul_of_nonneg_right (mul_le_mul_of_nonneg_left hP hA.le) hsq
    _ ≤ _ := h2

theorem comparison_silent_below (A b c : ℚ) (hA : 0 < A) (hc : 0 ≤ c)
    (hb : b ≤ (50 + c / 2) * (1 - 1 / 2 ^ 50)) :
    ¬ jsMul (jsMul A (jsAdd 1 (jsDiv c 100))) 0.5 < jsMul A (jsDiv b 100) := by
  rw [not_lt]
  have h1 := halfCashValue_ge A c hA hc
  have hT : 0 < 1 + c / 100 := by positivity
  have hAT : 0 < A * (1 + c / 100) := mul_pos hA hT
  rcases lt_or_le b 0 with hneg | hb0
  · have hL : jsMul A (jsDiv b 100) ≤ 0 := by
      unfold jsMul jsDiv
      apply roundToDouble_nonpos
      have : roundToDouble (b / 100) ≤ 0 :=
        roundToDouble_nonpos _ (div_nonpos_of_nonpos_of_nonneg hneg.le (by norm_num))
      exact mul_nonpos_of_nonneg_of_nonpos hA.le this
    have hR : (0 : ℚ) ≤ A * (1 + c / 100) * (1 - 1 / 2 ^ 53) ^ 4 * 0.5 := by positivity
    linarith
  · have h2 := loanEstimate_le A b hA hb0
    have hnum : (1 - 1 / 2 ^ 50) * (1 + 1 / 2 ^ 53 : ℚ) ^ 2 * 0.5 ≤ (1 - 1 / 2 ^ 53) ^ 4 * 0.5 := by
      norm_num
    have hP : b / 100 ≤ (1 + c / 100) * (1 - 1 / 2 ^ 50) * 0.5 := by
      have : (1 + c / 100) * (1 - 1 / 2 ^ 50) * 0.5 = (50 + c / 2) * (1 - 1 / 2 ^ 50) / 100 := by
        ring
      rw [this]
      exact div_le_div_of_nonneg_right hb (by norm_num)
    have hsq : (0 : ℚ) ≤ (1 + 1 / 2 ^ 53) ^ 2 := sq_nonneg _
    calc jsMul A (jsDiv b 100) ≤ A * (b / 100) * (1 + 1 / 2 ^ 53) ^ 2 := h2
      _ ≤ A * ((1 + c / 100) * (1 - 1 / 2 ^ 50) * 0.5) * (1 + 1 / 2 ^ 53) ^ 2 :=
          mul_le_mul_of_nonneg_right (mul_le_mul_of_nonneg_left hP hA.le) hsq
      _ = A * (1 + c / 100) * ((1 - 1 / 2 ^ 50) * (1 + 1 / 2 ^ 53) ^ 2 * 0.5) := by ring
      _ ≤ A * (1 + c / 100) * ((1 - 1 / 2 ^ 53) ^ 4 * 0.5) :=
          mul_le_mul_of_nonneg_left hnum hAT.le
      _ = A * (1 + c / 100) * (1 - 1 / 2 ^ 53) ^ 4 * 0.5 := by ring
      _ ≤ _ := h1

/-! ## Input gathering -/

theorem parseFloat_default_texts :
    parseFloat ("50000") = some 50000 ∧ parseFloat ("20") = some 20 ∧
      parseFloat ("25") = some 25 ∧ parseFloat ("7") = some 7 ∧
      parseFloat ("4") = some 4 ∧ parseFloat ("90") = some 90 ∧
      parseFloat ("6") = some 6 ∧ parseFloat ("750000") = some 750000 := by
  obtain ⟨r1, r2, r3, r4, r5, r6, r7, r8, -⟩ := roundToDouble_small_integers
  refine ⟨?_, ?_, ?_, ?_, ?_, ?_, ?_, ?_⟩ <;>
    simp [parseFloat, readSign, skipWhiteSpace, readDigits, readExponent,
      isStrWhiteSpaceChar, r1, r2, r3, r4, r5, r6, r7, r8]

theorem parseInt_default_texts :
    parseInt ("51") = some 51 ∧ parseInt ("10") = some 10 := by
  constructor <;> decide

theorem parseFloat_zero_text : parseFloat ("0") = some 0 := by
  simp [parseFloat, readSign, skipWhiteSpace, readDigits, readExponent,
    isStrWhiteSpaceChar, roundToDouble_zero]

theorem parseFloat_empty_text : parseFloat ("") = none := by
  decide

theorem gatherInputs_emptyForm : gatherInputs emptyForm = defaultGathered := by
  obtain ⟨h1, h2, h3, h4, h5, h6, h7, h8⟩ := parseFloat_default_texts
  obtain ⟨i1, i2⟩ := parseInt_default_texts
  simp [gatherInputs, emptyForm, defaultGathered, safeGetValue, orDefault, orDefaultInt,
    h1, h2, h3, h4, h5, h6, h7, h8, i1, i2]

theorem defaultGathered_simulatorInputs :
    defaultGathered.simulatorInputs = some defaultInputs := rfl

theorem orDefault_absentOrNaN (element : Option String) (defaultText : String)
    (defaultValue : ℚ) (hd : parseFloat defaultText = some defaultValue)
    (h : absentOrNaN element) :
    orDefault (parseFloat (safeGetValue element defaultText)) defaultValue =
      defaultValue := by
  cases element with
  | none => simp [safeGetValue, hd, orDefault]
  | some text => simp [safeGetValue, h text rfl, orDefault]

theorem orDefaultInt_absentOrNaNInt (element : Option String) (defaultText : String)
    (defaultValue : Int) (hd : parseInt defaultText = some defaultValue)
    (h : absentOrNaNInt element) :
    orDefaultInt (parseInt (safeGetValue element defaultText)) defaultValue =
      defaultValue := by
  cases element with
  | none => simp [safeGetValue, hd, orDefaultInt]
  | some text => simp [safeGetValue, h text rfl, orDefaultInt]

/-- C22, on the code: with every element missing gatherInputs returns the documented
defaults, and each field read through `|| default` takes its default when its element
is missing or its text parses to NaN; so does taxRate when its select is missing, or
set to custom with the custom field missing or not a number.  But a tax-rate select
that is present with a non-numeric value other than custom gives taxRate = NaN, not
25: that path has no `|| 25`; calculate then stores results whose afterTaxCapital and
epigAfterTax are NaN. -/
theorem gatherInputs_defaults_and_taxRate_gap :
    gatherInputs emptyForm = defaultGathered ∧
      (∀ form : FormState,
        (absentOrNaNInt form.currentAge → (gatherInputs form).currentAge = 51) ∧
        (absentOrNaNInt form.timeHorizon → (gatherInputs form).timeHorizon = 10) ∧
        (absentOrNaN form.annualContribution →
          (gatherInputs form).annualContribution = 50000) ∧
        (form.contributionTiming = none → (gatherInputs form).contributionTiming = "end") ∧
        (absentOrNaN form.directCAGR → (gatherInputs form).directCAGR = 20) ∧
        (form.taxRate = none → (gatherInputs form).taxRate = some 25) ∧
        (form.taxRate = some "custom" → absentOrNaN form.customTaxRate →
          (gatherInputs form).taxRate = some 25) ∧
        (absentOrNaN form.perpetualRate → (gatherInputs form).perpetualRate = 7) ∧
        (absentOrNaN form.cvGrowthRate → (gatherInputs form).cvGrowthRate = 4) ∧
        (absentOrNaN form.borrowPercent → (gatherInputs form).borrowPercent = 90) ∧
        (absentOrNaN form.loanRate → (gatherInputs form).loanRate = 6) ∧
        (absentOrNaN form.deathBenefit → (gatherInputs form).deathBenefit = 750000)) ∧
      blankTaxSelectForm.taxRate = some "" ∧
      (gatherInputs blankTaxSelectForm).taxRate = none ∧
      (gatherInputs blankTaxSelectForm).taxRate ≠ some 25 ∧
      (calculate blankTaxSelectForm).1.afterTaxCapital = none ∧
      (calculate blankTaxSelectForm).2.epigAfterTax = none := by
  obtain ⟨h1, h2, h3, h4, h5, h6, h7, h8⟩ := parseFloat_default_texts
  obtain ⟨i1, i2⟩ := parseInt_default_texts
  have hgap : (gatherInputs blankTaxSelectForm).taxRate = none := by
    simp [gatherInputs, blankTaxSelectForm, emptyForm, parseFloat_empty_text]
  refine ⟨gatherInputs_emptyForm, ?_, rfl, hgap, by rw [hgap]; simp, ?_, ?_⟩
  · intro form
    refine ⟨?_, ?_, ?_, ?_, ?_, ?_, ?_, ?_, ?_, ?_, ?_, ?_⟩
    · exact orDefaultInt_absentOrNaNInt _ _ _ i1
    · exact orDefaultInt_absentOrNaNInt _ _ _ i2
    · exact orDefault_absentOrNaN _ _ _ h1
    · intro h
      simp [gatherInputs, h]
    · exact orDefault_absentOrNaN _ _ _ h2
    · intro h
      simp [gatherInputs, h]
    · intro h hc
      have := orDefault_absentOrNaN form.customTaxRate ("25") 25 h3 hc
      simp [gatherInputs, h, this]
    · exact orDefault_absentOrNaN _ _ _ h4
    · exact orDefault_absentOrNaN _ _ _ h5
    · exact orDefault_absentOrNaN _ _ _ h6
    · exact orDefault_absentOrNaN _ _ _ h7
    · exact orDefault_absentOrNaN _ _ _ h8
  · simp [calculate, calculatePlan1Gathered, nanLift, hgap]
  · simp [calculate, calculatePlan2Gathered, nanLift, hgap]

/-- C23, on the code: the text 0 is a valid number, parseFloat reads it as 0, yet
gatherInputs returns the default instead: directCAGR 20, borrowPercent 90 and
annualContribution 50000, because `0 || default` is the default.  A text that parses
to a number other than 0 is returned as that number. -/
theorem gatherInputs_zero_replaced :
    parseFloat ("0") = some 0 ∧
      zeroFieldsForm.directCAGR = some "0" ∧
      (gatherInputs zeroFieldsForm).directCAGR = 20 ∧
      (gatherInputs zeroFieldsForm).borrowPercent = 90 ∧
      (gatherInputs zeroFieldsForm).annualContribution = 50000 ∧
      (gatherInputs zeroFieldsForm).simulatorInputs = some defaultInputs ∧
      ∀ (form : FormState) (text : String) (value : ℚ),
        form.directCAGR = some text → parseFloat text = some value → value ≠ 0 →
          (gatherInputs form).directCAGR = value := by
  have h0 := parseFloat_zero_text
  have hd : (gatherInputs zeroFieldsForm).directCAGR = 20 := by
    simp [gatherInputs, zeroFieldsForm, emptyForm, safeGetValue, h0, orDefault]
  have hb : (gatherInputs zeroFieldsForm).borrowPercent = 90 := by
    simp [gatherInputs, zeroFieldsForm, emptyForm, safeGetValue, h0, orDefault]
  have ha : (gatherInputs zeroFieldsForm).annualContribution = 50000 := by
    simp [gatherInputs, zeroFieldsForm, emptyForm, safeGetValue, h0, orDefault]
  refine ⟨h0, rfl, hd, hb, ha, ?_, ?_⟩
  · have hg : gatherInputs zeroFieldsForm = defaultGathered := by
      have hE2 := gatherInputs_emptyForm
      simp only [gatherInputs, emptyForm, defaultGathered, GatheredInputs.mk.injEq] at hE2
      simp only [gatherInputs, zeroFieldsForm, emptyForm, defaultGathered,
        GatheredInputs.mk.injEq]
      refine ⟨hE2.1, hE2.2.1, ?_, hE2.2.2.2.1, ?_, hE2.2.2.2.2.2.1, hE2.2.2.2.2.2.2.1,
        hE2.2.2.2.2.2.2.2.1, ?_, hE2.2.2.2.2.2.2.2.2.2⟩
      · simp [safeGetValue, h0, orDefault]
      · simp [safeGetValue, h0, orDefault]
      · simp [safeGetValue, h0, orDefault]
    rw [hg]
    rfl
  · intro form text value hf hp hv
    simp [gatherInputs, hf, safeGetValue, hp, orDefault, hv]

/-! ## The simulators as `calculate` runs them -/

theorem plan1Loop_withTaxRate (g : GatheredInputs) (t : ℚ) (k : Nat) :
    plan1Loop (g.withTaxRate 0) k = plan1Loop (g.withTaxRate t) k := by
  induction k with
  | zero => rfl
  | succ k ih =>
    simp only [plan1Loop, ih]
    rfl

theorem plan2Loop_withTaxRate (g : GatheredInputs) (t : ℚ) (k : Nat) :
    plan2Loop (g.withTaxRate 0) k = plan2Loop (g.withTaxRate t) k := by
  induction k with
  | zero => rfl
  | succ k ih =>
    simp only [plan2Loop, ih]
    rfl

theorem simulatorInputs_of_taxRate (g : GatheredInputs) (t : ℚ) (h : g.taxRate = some t) :
    g.simulatorInputs = some (g.withTaxRate t) := by
  unfold GatheredInputs.simulatorInputs
  rw [h]
  rfl

theorem calculatePlan1Gathered_of_taxRate (g : GatheredInputs) (t : ℚ)
    (h : g.taxRate = some t) :
    calculatePlan1Gathered g = (calculatePlan1 (g.withTaxRate t)).stored := by
  unfold calculatePlan1Gathered
  rw [plan1Loop_withTaxRate g t, h]
  rfl

theorem calculatePlan2Gathered_of_taxRate (g : GatheredInputs) (t : ℚ)
    (h : g.taxRate = some t) :
    calculatePlan2Gathered g = (calculatePlan2 (g.withTaxRate t)).stored := by
  unfold calculatePlan2Gathered
  rw [plan2Loop_withTaxRate g t, h]
  rfl

/-- C2, on the code: for every input whose fields are numbers the
netEPIGAfterLoanPayoff returned by calculatePlan2 is ≥ 0, also when loanBalance exceeds
epigAfterTax, and so it is whenever the gathered taxRate is a number.  But with the
tax-rate select present and empty, gatherInputs returns taxRate = NaN, calculate passes
it on, and `Math.max(0, NaN)` is NaN: the stored netEPIGAfterLoanPayoff is not a number
≥ 0. -/
theorem netEPIG_nonneg_unless_NaN :
    (∀ inputs : Inputs, 0 ≤ (calculatePlan2 inputs).netEPIGAfterLoanPayoff) ∧
      (∀ (g : GatheredInputs) (t : ℚ), g.taxRate = some t →
        ∃ v : ℚ, (calculatePlan2Gathered g).netEPIGAfterLoanPayoff = some v ∧ 0 ≤ v) ∧
      (gatherInputs blankTaxSelectForm).taxRate = none ∧
      (calculate blankTaxSelectForm).2 =
        calculatePlan2Gathered (gatherInputs blankTaxSelectForm) ∧
      (calculate blankTaxSelectForm).2.netEPIGAfterLoanPayoff = none ∧
      ¬ ∃ v : ℚ, (calculate blankTaxSelectForm).2.netEPIGAfterLoanPayoff = some v ∧
        0 ≤ v := by
  have hgap : (gatherInputs blankTaxSelectForm).taxRate = none := by
    simp [gatherInputs, blankTaxSelectForm, emptyForm, parseFloat_empty_text]
  have hnan : (calculate blankTaxSelectForm).2.netEPIGAfterLoanPayoff = none := by
    simp [calculate, calculatePlan2Gathered, nanLift, nanMaxZero, hgap]
  refine ⟨netEPIGAfterLoanPayoff_nonneg, ?_, hgap, rfl, hnan, ?_⟩
  · intro g t h
    rw [calculatePlan2Gathered_of_taxRate g t h]
    exact ⟨_, rfl, netEPIGAfterLoanPayoff_nonneg _⟩
  · rintro ⟨v, hv, -⟩
    rw [hnan] at hv
    exact Option.noConfusion hv

/-! ## Validation -/

theorem highBorrow_not_mem_negativeWarnings (g : GatheredInputs) :
    Warning.highBorrow ∉ negativeWarnings g := by
  unfold negativeWarnings
  simp only [List.mem_append, not_or]
  refine ⟨⟨⟨⟨⟨⟨⟨⟨⟨?_, ?_⟩, ?_⟩, ?_⟩, ?_⟩, ?_⟩, ?_⟩, ?_⟩, ?_⟩, ?_⟩
  all_goals first
    | (split_ifs <;> simp)
    | (split <;> simp)

theorem lapseRisk_not_mem_negativeWarnings (g : GatheredInputs) :
    Warning.lapseRisk ∉ negativeWarnings g := by
  unfold negativeWarnings
  simp only [List.mem_append, not_or]
  refine ⟨⟨⟨⟨⟨⟨⟨⟨⟨?_, ?_⟩, ?_⟩, ?_⟩, ?_⟩, ?_⟩, ?_⟩, ?_⟩, ?_⟩, ?_⟩
  all_goals first
    | (split_ifs <;> simp)
    | (split <;> simp)

theorem highBorrow_mem_iff (g : GatheredInputs) :
    Warning.highBorrow ∈ validationWarnings g ↔ 95 < g.borrowPercent := by
  have hneg := highBorrow_not_mem_negativeWarnings g
  unfold validationWarnings
  simp only [gt_iff_lt]
  split_ifs with h1 h2 h2 <;> simp_all

theorem lapseRisk_mem_iff (g : GatheredInputs) :
    Warning.lapseRisk ∈ validationWarnings g ↔
      jsMul (jsMul (jsMul g.annualContribution (g.timeHorizon : ℚ))
          (jsAdd 1 (jsDiv g.cvGrowthRate 100))) 0.5 <
        jsMul (jsMul g.annualContribution (g.timeHorizon : ℚ)) (jsDiv g.borrowPercent 100) := by
  have hneg := lapseRisk_not_mem_negativeWarnings g
  unfold validationWarnings
  simp only [gt_iff_lt]
  split_ifs with h1 h2 h2 <;> simp_all

theorem lapseRisk_fires (g : GatheredInputs)
    (h : 0 < g.annualContribution * (g.timeHorizon : ℚ)) (hc : 0 ≤ g.cvGrowthRate)
    (hb : (50 + g.cvGrowthRate / 2) * (1 + 1 / 2 ^ 50) ≤ g.borrowPercent) :
    Warning.lapseRisk ∈ validationWarnings g := by
  rw [lapseRisk_mem_iff]
  exact comparison_fires_above _ _ _ (roundToDouble_pos _ h) hc hb

theorem lapseRisk_silent (g : GatheredInputs)
    (h : 0 < g.annualContribution * (g.timeHorizon : ℚ)) (hc : 0 ≤ g.cvGrowthRate)
    (hb : g.borrowPercent ≤ (50 + g.cvGrowthRate / 2) * (1 - 1 / 2 ^ 50)) :
    Warning.lapseRisk ∉ validationWarnings g := by
  rw [lapseRisk_mem_iff]
  exact comparison_silent_below _ _ _ (roundToDouble_pos _ h) hc hb

theorem lapseRisk_mem_default : Warning.lapseRisk ∈ validationWarnings defaultGathered := by
  apply lapseRisk_fires <;> norm_num [defaultGathered]

theorem validateInputs_emptyForm : validateInputs emptyForm = false := by
  have hmem := lapseRisk_mem_default
  unfold validateInputs
  rw [gatherInputs_emptyForm]
  rw [decide_eq_false_iff_not]
  intro hlen
  rw [List.length_eq_zero] at hlen
  rw [hlen] at hmem
  exact absurd hmem (List.not_mem_nil _)

theorem gatherInputs_highBorrowForm :
    gatherInputs highBorrowForm = { defaultGathered with borrowPercent := 150 } := by
  have hE := gatherInputs_emptyForm
  simp only [gatherInputs, emptyForm, defaultGathered, GatheredInputs.mk.injEq] at hE
  have h150 : parseFloat ("150") = some 150 := by
    simp [parseFloat, readSign, skipWhiteSpace, readDigits, readExponent,
      isStrWhiteSpaceChar, roundToDouble_small_integers.2.2.2.2.2.2.2.2]
  simp only [gatherInputs, highBorrowForm, emptyForm, defaultGathered,
    GatheredInputs.mk.injEq]
  refine ⟨hE.1, hE.2.1, hE.2.2.1, hE.2.2.2.1, hE.2.2.2.2.1, hE.2.2.2.2.2.1,
    hE.2.2.2.2.2.2.1, hE.2.2.2.2.2.2.2.1, ?_, hE.2.2.2.2.2.2.2.2.2⟩
  simp [safeGetValue, h150, orDefault]

/-- C24: for every gathered input validateInputs adds the high-borrow warning exactly
when borrowPercent > 95 and the lapse-risk warning exactly when the code's comparison
holds: annualContribution*timeHorizon*(borrowPercent/100) >
annualContribution*timeHorizon*(1 + cvGrowthRate/100) * 0.5, each operation carried out
in double arithmetic as the code does.  The warnings are advisory: calculate hands the
gathered inputs to calculatePlan1 and calculatePlan2 whatever validateInputs returns;
with borrowPercent 150 validateInputs returns false and both simulators still run on
borrowPercent 150. -/
theorem validateInputs_advisory (g : GatheredInputs) (form : FormState) :
    (Warning.highBorrow ∈ validationWarnings g ↔ g.borrowPercent > 95) ∧
      (Warning.lapseRisk ∈ validationWarnings g ↔
        jsMul (jsMul g.annualContribution (g.timeHorizon : ℚ)) (jsDiv g.borrowPercent 100) >
          jsMul (jsMul (jsMul g.annualContribution (g.timeHorizon : ℚ))
            (jsAdd 1 (jsDiv g.cvGrowthRate 100))) 0.5) ∧
      calculate form =
        (calculatePlan1Gathered (gatherInputs form),
          calculatePlan2Gathered (gatherInputs form)) ∧
      (∀ inputs : Inputs, (gatherInputs form).simulatorInputs = some inputs →
        calculate form = ((calculatePlan1 inputs).stored, (calculatePlan2 inputs).stored)) ∧
      validateInputs highBorrowForm = false ∧
      calculate highBorrowForm =
        ((calculatePlan1 { defaultInputs with borrowPercent := 150 }).stored,
          (calculatePlan2 { defaultInputs with borrowPercent := 150 }).stored) := by
  refine ⟨highBorrow_mem_iff g, lapseRisk_mem_iff g, rfl, ?_, ?_, ?_⟩
  · intro inputs hsim
    cases ht : (gatherInputs form).taxRate with
    | none =>
      simp [GatheredInputs.simulatorInputs, ht] at hsim
    | some t =>
      rw [simulatorInputs_of_taxRate _ t ht, Option.some.injEq] at hsim
      subst hsim
      show (calculatePlan1Gathered (gatherInputs form),
        calculatePlan2Gathered (gatherInputs form)) = _
      rw [calculatePlan1Gathered_of_taxRate _ t ht, calculatePlan2Gathered_of_taxRate _ t ht]
  · have hmem : Warning.highBorrow ∈ validationWarnings (gatherInputs highBorrowForm) := by
      rw [highBorrow_mem_iff, gatherInputs_highBorrowForm]
      norm_num
    unfold validateInputs
    rw [decide_eq_false_iff_not]
    intro hlen
    rw [List.length_eq_zero] at hlen
    rw [hlen] at hmem
    exact absurd hmem (List.not_mem_nil _)
  · show (calculatePlan1Gathered (gatherInputs highBorrowForm),
      calculatePlan2Gathered (gatherInputs highBorrowForm)) = _
    rw [gatherInputs_highBorrowForm,
      calculatePlan1Gathered_of_taxRate _ 25 rfl, calculatePlan2Gathered_of_taxRate _ 25 rfl]
    rfl

theorem roundToDouble_of_near (x : ℚ) (k m : Int) (hx : 0 < x) (h1 : (2 : ℚ) ^ k ≤ x)
    (h2 : x < (2 : ℚ) ^ (k + 1)) (h : |x / (2 : ℚ) ^ (k - 52) - (m : ℚ)| < 1 / 2) :
    roundToDouble x = (m : ℚ) * (2 : ℚ) ^ (k - 52) :=
  roundToDouble_eq x k m hx h1 h2 (roundHalfEven_eq_of_near _ _ h)

theorem boundary_loanEstimate :
    jsMul (jsMul 50000 ((10 : Int) : ℚ)) (jsDiv 68 100) = 340000 := by
  have hA : jsMul 50000 ((10 : Int) : ℚ) = 500000 := by
    unfold jsMul
    rw [roundToDouble_of_near _ 18 8589934592000000 (by norm_num) (by norm_num)
      (by norm_num) (by norm_num [abs_lt])]
    norm_num
  have hp : jsDiv 68 100 = 6124895493223875 / 9007199254740992 := by
    unfold jsDiv
    rw [roundToDouble_of_near _ (-1) 6124895493223875 (by norm_num) (by norm_num)
      (by norm_num) (by norm_num [abs_lt])]
    norm_num
  rw [hA, hp]
  unfold jsMul
  rw [roundToDouble_of_near _ 18 5841155522560000 (by norm_num) (by norm_num)
    (by norm_num) (by norm_num [abs_lt])]
  norm_num

theorem boundary_halfCashValue :
    jsMul (jsMul (jsMul 50000 ((10 : Int) : ℚ)) (jsAdd 1 (jsDiv 36 100))) 0.5 =
      5841155522559999 / 17179869184 := by
  have hA : jsMul 50000 ((10 : Int) : ℚ) = 500000 := by
    unfold jsMul
    rw [roundToDouble_of_near _ 18 8589934592000000 (by norm_num) (by norm_num)
      (by norm_num) (by norm_num [abs_lt])]
    norm_num
  have hq : jsDiv 36 100 = 3242591731706757 / 9007199254740992 := by
    unfold jsDiv
    rw [roundToDouble_of_near _ (-2) 6485183463413514 (by norm_num) (by norm_num)
      (by norm_num) (by norm_num [abs_lt])]
    norm_num
  have hs : jsAdd 1 (3242591731706757 / 9007199254740992) =
      3062447746611937 / 2251799813685248 := by
    unfold jsAdd
    have htie : (1 + 3242591731706757 / 9007199254740992 : ℚ) / (2 : ℚ) ^ ((0 : Int) - 52) =
        ((6124895493223874 : Int) : ℚ) + 1 / 2 := by norm_num
    rw [roundToDouble_eq _ 0 6124895493223874 (by norm_num) (by norm_num) (by norm_num)
      (by rw [htie]; exact roundHalfEven_tie_down _ (by decide))]
    norm_num
  have hE : jsMul 500000 (3062447746611937 / 2251799813685248) =
      5841155522559999 / 8589934592 := by
    unfold jsMul
    rw [roundToDouble_of_near _ 19 5841155522559999 (by norm_num) (by norm_num)
      (by norm_num) (by norm_num [abs_lt])]
    norm_num
  rw [hA, hq, hs, hE]
  unfold jsMul
  rw [roundToDouble_of_near _ 18 5841155522559999 (by norm_num) (by norm_num)
    (by norm_num) (by norm_num [abs_lt])]
  norm_num

/-- C30 as stated fails in the arithmetic the code runs: at borrowPercent 68 and
cvGrowthRate 36 (contribution 50000, horizon 10) the rule borrowPercent > 50 +
cvGrowthRate/2 reads 68 > 68, which is false, yet the code compares the rounded
estimates 340000 and 339999.99999999994 and pushes the lapse-risk warning. -/
theorem lapseRisk_fires_on_boundary :
    0 < boundaryGathered.annualContribution * (boundaryGathered.timeHorizon : ℚ) ∧
      Warning.lapseRisk ∈ validationWarnings boundaryGathered ∧
      ¬ boundaryGathered.borrowPercent > 50 + boundaryGathered.cvGrowthRate / 2 ∧
      ¬ (Warning.lapseRisk ∈ validationWarnings boundaryGathered ↔
          boundaryGathered.borrowPercent > 50 + boundaryGathered.cvGrowthRate / 2) := by
  have hmem : Warning.lapseRisk ∈ validationWarnings boundaryGathered := by
    rw [lapseRisk_mem_iff]
    show jsMul (jsMul (jsMul 50000 ((10 : Int) : ℚ)) (jsAdd 1 (jsDiv 36 100))) 0.5 <
      jsMul (jsMul 50000 ((10 : Int) : ℚ)) (jsDiv 68 100)
    rw [boundary_halfCashValue, boundary_loanEstimate]
    norm_num
  have hrule : ¬ boundaryGathered.borrowPercent > 50 + boundaryGathered.cvGrowthRate / 2 := by
    norm_num [boundaryGathered, defaultGathered]
  refine ⟨by norm_num [boundaryGathered, defaultGathered], hmem, hrule, ?_⟩
  intro hiff
  exact hrule (hiff.mp hmem)

/-- C30, amended: whenever annualContribution * timeHorizon > 0 and cvGrowthRate ≥ 0,
the lapse-risk warning of validateInputs, computed in double arithmetic, fires whenever
borrowPercent ≥ (50 + cvGrowthRate/2) * (1 + 2^-50) and does not fire whenever
borrowPercent ≤ (50 + cvGrowthRate/2) * (1 - 2^-50), whatever the contribution and the
horizon; between the two bounds rounding decides.  The documented defaults
(borrowPercent 90, cvGrowthRate 4) raise the warning, and validateInputs returns false
on them. -/
theorem lapseRisk_threshold (g : GatheredInputs)
    (h : 0 < g.annualContribution * (g.timeHorizon : ℚ)) (hc : 0 ≤ g.cvGrowthRate) :
    ((50 + g.cvGrowthRate / 2) * (1 + 1 / 2 ^ 50) ≤ g.borrowPercent →
        Warning.lapseRisk ∈ validationWarnings g) ∧
      (g.borrowPercent ≤ (50 + g.cvGrowthRate / 2) * (1 - 1 / 2 ^ 50) →
        Warning.lapseRisk ∉ validationWarnings g) ∧
      Warning.lapseRisk ∈ validationWarnings defaultGathered ∧
      gatherInputs emptyForm = defaultGathered ∧
      validateInputs emptyForm = false :=
  ⟨lapseRisk_fires g h hc, lapseRisk_silent g h hc, lapseRisk_mem_default,
    gatherInputs_emptyForm, validateInputs_emptyForm⟩

/-- Witness for C30 (amended) at the documented defaults: 50000 * 10 > 0, 4 ≥ 0 and
90 ≥ 52 * (1 + 2^-50), so the warning fires. -/
theorem lapseRisk_threshold_witness :
    0 < defaultGathered.annualContribution * (defaultGathered.timeHorizon : ℚ) ∧
      0 ≤ defaultGathered.cvGrowthRate ∧
      (50 + defaultGathered.cvGrowthRate / 2) * (1 + 1 / 2 ^ 50) ≤
        defaultGathered.borrowPercent ∧
      Warning.lapseRisk ∈ validationWarnings defaultGathered :=
  ⟨by norm_num [defaultGathered], by norm_num [defaultGathered],
    by norm_num [defaultGathered],
    (lapseRisk_threshold defaultGathered (by norm_num [defaultGathered])
      (by norm_num [defaultGathered])).1 (by norm_num [defaultGathered])⟩

/-! ## Plan 1 without growth, and the sign of its results -/

theorem growthSum_one (timing : String) (k : Nat) : growthSum timing 1 k = (k : ℚ) := by
  induction k with
  | zero => simp [growthSum]
  | succ k ih =>
    simp only [growthSum, ih]
    push_cast
    split_ifs <;> ring

/-- C21: with directCAGR = 0, for every timeHorizon n ≥ 1, either contribution timing
and any taxRate, calculatePlan1 flatlines: portfolioValue = annualContribution *
timeHorizon = totalContributed, gains = 0, taxOnGains = 0 and afterTaxCapital =
totalContributed. -/
theorem plan1_flatline (inputs : Inputs) (hd : inputs.directCAGR = 0)
    (hn : 1 ≤ inputs.timeHorizon) :
    (calculatePlan1 inputs).portfolioValue =
        inputs.annualContribution * (inputs.timeHorizon : ℚ) ∧
      (calculatePlan1 inputs).portfolioValue = (calculatePlan1 inputs).totalContributed ∧
      (calculatePlan1 inputs).gains = 0 ∧
      (calculatePlan1 inputs).taxOnGains = 0 ∧
      (calculatePlan1 inputs).afterTaxCapital = (calculatePlan1 inputs).totalContributed := by
  have hP : (calculatePlan1 inputs).portfolioValue =
      inputs.annualContribution * (inputs.timeHorizon : ℚ) := by
    show (plan1Loop inputs inputs.timeHorizon.toNat).portfolioValue = _
    rw [plan1Loop_portfolioValue, hd, timeHorizon_cast inputs (by omega)]
    norm_num [growthSum_one]
  have hT : (calculatePlan1 inputs).totalContributed =
      inputs.annualContribution * (inputs.timeHorizon : ℚ) := rfl
  have hG : (calculatePlan1 inputs).gains =
      (calculatePlan1 inputs).portfolioValue - (calculatePlan1 inputs).totalContributed := rfl
  have hX : (calculatePlan1 inputs).taxOnGains =
      (calculatePlan1 inputs).gains * (inputs.taxRate / 100) := rfl
  have hA : (calculatePlan1 inputs).afterTaxCapital =
      (calculatePlan1 inputs).portfolioValue - (calculatePlan1 inputs).taxOnGains := rfl
  have hG0 : (calculatePlan1 inputs).gains = 0 := by rw [hG, hP, hT, sub_self]
  have hX0 : (calculatePlan1 inputs).taxOnGains = 0 := by rw [hX, hG0, zero_mul]
  exact ⟨hP, by rw [hP, hT], hG0, hX0, by rw [hA, hX0, sub_zero, hP, hT]⟩

/-- Witness for C21: the documented defaults with directCAGR 0 end at 500000. -/
theorem plan1_flatline_witness :
    zeroGrowthInputs.directCAGR = 0 ∧ (1 : Int) ≤ zeroGrowthInputs.timeHorizon ∧
      (calculatePlan1 zeroGrowthInputs).portfolioValue =
        zeroGrowthInputs.annualContribution * (zeroGrowthInputs.timeHorizon : ℚ) :=
  ⟨rfl, by decide, (plan1_flatline zeroGrowthInputs rfl (by decide)).1⟩

/-- C29 as stated fails: with a perpetualRate of -7 and otherwise the documented
defaults (annualContribution ≥ 0, directCAGR ≥ 0, timeHorizon ≥ 1, 0 ≤ taxRate ≤ 100)
the perpetualIncome returned by calculatePlan1 is negative. -/
theorem plan1_perpetualIncome_negative :
    0 ≤ negativePayoutInputs.annualContribution ∧ 0 ≤ negativePayoutInputs.directCAGR ∧
      1 ≤ negativePayoutInputs.timeHorizon ∧ 0 ≤ negativePayoutInputs.taxRate ∧
      negativePayoutInputs.taxRate ≤ 100 ∧
      ¬ 0 ≤ (calculatePlan1 negativePayoutInputs).perpetualIncome := by
  refine ⟨?_, ?_, by decide, ?_, ?_, ?_⟩
  · norm_num [negativePayoutInputs, defaultInputs]
  · norm_num [negativePayoutInputs, defaultInputs]
  · norm_num [negativePayoutInputs, defaultInputs]
  · norm_num [negativePayoutInputs, defaultInputs]
  · have e1 : (calculatePlan1 negativePayoutInputs).perpetualIncome =
        (calculatePlan1 negativePayoutInputs).afterTaxCapital * 0.70 *
          (negativePayoutInputs.perpetualRate / 100) := rfl
    rw [e1, plan1_afterTaxCapital_eq _ (by decide)]
    simp [plan1CapitalFactor, growthSum, negativePayoutInputs, defaultInputs]
    norm_num

/-- C29, amended: for every input to calculatePlan1 with annualContribution ≥ 0,
directCAGR ≥ 0, integer timeHorizon ≥ 1 and either timing, gains ≥ 0 (portfolioValue ≥
totalContributed); if moreover 0 ≤ taxRate ≤ 100 then totalContributed ≤
afterTaxCapital ≤ portfolioValue, so liquidity is non-negative, and perpetualIncome is
non-negative when perpetualRate ≥ 0. -/
theorem plan1_results_nonneg (inputs : Inputs) (ha : 0 ≤ inputs.annualContribution)
    (hd : 0 ≤ inputs.directCAGR) (hn : 1 ≤ inputs.timeHorizon) :
    0 ≤ (calculatePlan1 inputs).gains ∧
      (calculatePlan1 inputs).totalContributed ≤ (calculatePlan1 inputs).portfolioValue ∧
      (0 ≤ inputs.taxRate → inputs.taxRate ≤ 100 →
        (calculatePlan1 inputs).totalContributed ≤ (calculatePlan1 inputs).afterTaxCapital ∧
          (calculatePlan1 inputs).afterTaxCapital ≤ (calculatePlan1 inputs).portfolioValue ∧
          0 ≤ (calculatePlan1 inputs).liquidity ∧
          (0 ≤ inputs.perpetualRate → 0 ≤ (calculatePlan1 inputs).perpetualIncome)) := by
  have hS := growthSum_ge inputs.contributionTiming (1 + inputs.directCAGR / 100)
    (by linarith [div_nonneg hd (by norm_num : (0 : ℚ) ≤ 100)]) inputs.timeHorizon.toNat
  have hP : (calculatePlan1 inputs).portfolioValue =
      inputs.annualContribution *
        growthSum inputs.contributionTiming (1 + inputs.directCAGR / 100)
          inputs.timeHorizon.toNat := plan1Loop_portfolioValue inputs _
  have hT : (calculatePlan1 inputs).totalContributed =
      inputs.annualContribution * (inputs.timeHorizon.toNat : ℚ) := by
    show inputs.annualContribution * (inputs.timeHorizon : ℚ) = _
    rw [timeHorizon_cast inputs (by omega)]
  have hN : (1 : ℚ) ≤ (inputs.timeHorizon.toNat : ℚ) := by
    have : 1 ≤ inputs.timeHorizon.toNat := by omega
    exact_mod_cast this
  have hG : (calculatePlan1 inputs).gains =
      (calculatePlan1 inputs).portfolioValue - (calculatePlan1 inputs).totalContributed := rfl
  have hA : (calculatePlan1 inputs).afterTaxCapital =
      (calculatePlan1 inputs).portfolioValue -
        (calculatePlan1 inputs).gains * (inputs.taxRate / 100) := rfl
  have hL : (calculatePlan1 inputs).liquidity =
      (calculatePlan1 inputs).afterTaxCapital * 0.30 := rfl
  have hI : (calculatePlan1 inputs).perpetualIncome =
      (calculatePlan1 inputs).afterTaxCapital * 0.70 * (inputs.perpetualRate / 100) := rfl
  have hle : (calculatePlan1 inputs).totalContributed ≤
      (calculatePlan1 inputs).portfolioValue := by
    rw [hP, hT]
    exact mul_le_mul_of_nonneg_left hS ha
  have hg0 : 0 ≤ (calculatePlan1 inputs).gains := by rw [hG]; linarith
  have hT0 : 0 ≤ (calculatePlan1 inputs).totalContributed := by
    rw [hT]; exact mul_nonneg ha (by linarith)
  refine ⟨hg0, hle, ?_⟩
  intro ht0 ht
  have h1 : 0 ≤ inputs.taxRate / 100 := div_nonneg ht0 (by norm_num)
  have h2 : inputs.taxRate / 100 ≤ 1 := by
    rw [div_le_one (by norm_num)]; exact ht
  have hx : 0 ≤ (calculatePlan1 inputs).gains * (inputs.taxRate / 100) :=
    mul_nonneg hg0 h1
  have hy : (calculatePlan1 inputs).gains * (inputs.taxRate / 100) ≤
      (calculatePlan1 inputs).gains := by
    calc (calculatePlan1 inputs).gains * (inputs.taxRate / 100)
        ≤ (calculatePlan1 inputs).gains * 1 := mul_le_mul_of_nonneg_left h2 hg0
      _ = (calculatePlan1 inputs).gains := mul_one _
  have hlow : (calculatePlan1 inputs).totalContributed ≤
      (calculatePlan1 inputs).afterTaxCapital := by
    rw [hA]; rw [hG] at hy ⊢; linarith
  have hA0 : 0 ≤ (calculatePlan1 inputs).afterTaxCapital := le_trans hT0 hlow
  refine ⟨hlow, by rw [hA]; linarith, ?_, ?_⟩
  · rw [hL]
    exact mul_nonneg hA0 (by norm_num)
  · intro hr
    rw [hI]
    exact mul_nonneg (mul_nonneg hA0 (by norm_num)) (div_nonneg hr (by norm_num))

/-- Witness for C29 (amended) at the documented defaults. -/
theorem plan1_results_nonneg_witness :
    0 ≤ defaultInputs.annualContribution ∧ 0 ≤ defaultInputs.directCAGR ∧
      (1 : Int) ≤ defaultInputs.timeHorizon ∧
      0 ≤ (calculatePlan1 defaultInputs).gains ∧
      0 ≤ (calculatePlan1 defaultInputs).liquidity ∧
      0 ≤ (calculatePlan1 defaultInputs).perpetualIncome := by
  have ha : 0 ≤ defaultInputs.annualContribution := by norm_num [defaultInputs]
  have hd : 0 ≤ defaultInputs.directCAGR := by norm_num [defaultInputs]
  have h := plan1_results_nonneg defaultInputs ha hd (by decide)
  have h2 := h.2.2 (by norm_num [defaultInputs]) (by norm_num [defaultInputs])
  exact ⟨ha, hd, by decide, h.1, h2.2.2.1, h2.2.2.2 (by norm_num [defaultInputs])⟩

/-! ## Plan 2 against Plan 1 -/

/-- C27 as stated fails for a negative timeHorizon: the loop does not run, loanBalance
stays 0 while totalBorrowed is negative, and netEPIGAfterLoanPayoff is 0 although
(1 - taxRate/100) * epigGains is 168750. -/
theorem netEPIG_negative_horizon :
    (calculatePlan2 negativeHorizonInputs).netEPIGAfterLoanPayoff ≠
      max 0 ((1 - negativeHorizonInputs.taxRate / 100) *
        (calculatePlan2 negativeHorizonInputs).epigGains) := by
  have h1 : (calculatePlan2 negativeHorizonInputs).netEPIGAfterLoanPayoff = 0 := by
    simp [calculatePlan2, plan2Loop, negativeHorizonInputs, defaultInputs]
    norm_num
  have h2 : (calculatePlan2 negativeHorizonInputs).epigGains = 225000 := by
    simp [calculatePlan2, plan2Loop, negativeHorizonInputs, defaultInputs]
    norm_num
  rw [h1, h2]
  norm_num [negativeHorizonInputs, defaultInputs]

/-- C27, amended: for every input with integer timeHorizon ≥ 0, the terminal
loanBalance of calculatePlan2 equals the total borrowed
(annualContribution * timeHorizon * borrowPercent/100), so netEPIGAfterLoanPayoff equals
max(0, (1 - taxRate/100) * epigGains); with 0 ≤ taxRate < 100 it is positive exactly
when epigValue - cumulativeInterest exceeds the total borrowed. -/
theorem netEPIG_after_tax_gain (inputs : Inputs) (hn : 0 ≤ inputs.timeHorizon) :
    (calculatePlan2 inputs).loanBalance =
        inputs.annualContribution * (inputs.timeHorizon : ℚ) *
          (inputs.borrowPercent / 100) ∧
      (calculatePlan2 inputs).netEPIGAfterLoanPayoff =
        max 0 ((1 - inputs.taxRate / 100) * (calculatePlan2 inputs).epigGains) ∧
      (0 ≤ inputs.taxRate → inputs.taxRate < 100 →
        (0 < (calculatePlan2 inputs).netEPIGAfterLoanPayoff ↔
          inputs.annualContribution * (inputs.timeHorizon : ℚ) *
              (inputs.borrowPercent / 100) <
            (calculatePlan2 inputs).epigValue -
              (calculatePlan2 inputs).cumulativeInterest)) := by
  have hL : (calculatePlan2 inputs).loanBalance =
      inputs.annualContribution * (inputs.timeHorizon : ℚ) *
        (inputs.borrowPercent / 100) := by
    show (plan2Loop inputs inputs.timeHorizon.toNat).loanBalance = _
    rw [plan2Loop_loanBalance, timeHorizon_cast inputs hn]
    ring
  have hG : (calculatePlan2 inputs).epigGains =
      (calculatePlan2 inputs).epigValue - (calculatePlan2 inputs).cumulativeInterest -
        inputs.annualContribution * (inputs.timeHorizon : ℚ) *
          (inputs.borrowPercent / 100) := rfl
  have hN : (calculatePlan2 inputs).netEPIGAfterLoanPayoff =
      max 0 ((calculatePlan2 inputs).epigValue - (calculatePlan2 inputs).cumulativeInterest -
        (calculatePlan2 inputs).epigGains * (inputs.taxRate / 100) -
        (calculatePlan2 inputs).loanBalance) := rfl
  have hnet : (calculatePlan2 inputs).netEPIGAfterLoanPayoff =
      max 0 ((1 - inputs.taxRate / 100) * (calculatePlan2 inputs).epigGains) := by
    rw [hN, hL]
    congr 1
    rw [hG]
    ring
  refine ⟨hL, hnet, ?_⟩
  intro _ ht
  have hpos : 0 < 1 - inputs.taxRate / 100 := by
    have : inputs.taxRate / 100 < 1 := by
      rw [div_lt_one (by norm_num)]; exact ht
    linarith
  rw [hnet, lt_max_iff]
  constructor
  · rintro (h | h)
    · exact absurd h (lt_irrefl 0)
    · have := (mul_pos_iff_of_pos_left hpos).mp h
      rw [hG] at this
      linarith
  · intro h
    right
    apply mul_pos hpos
    rw [hG]
    linarith

/-- Witness for C27 (amended) at the documented defaults. -/
theorem netEPIG_after_tax_gain_witness :
    (0 : Int) ≤ defaultInputs.timeHorizon ∧
      (calculatePlan2 defaultInputs).netEPIGAfterLoanPayoff =
        max 0 ((1 - defaultInputs.taxRate / 100) *
          (calculatePlan2 defaultInputs).epigGains) :=
  ⟨by decide, (netEPIG_after_tax_gain defaultInputs (by decide)).2.1⟩

/-- C28: for every input, calculatePlan2's terminal epigValue is borrowPercent/100
times the portfolioValue calculatePlan1 returns for the same input, and epigGains is
borrowPercent/100 times Plan 1's gains minus cumulativeInterest. -/
theorem epig_scales_plan1 (inputs : Inputs) :
    (calculatePlan2 inputs).epigValue =
        inputs.borrowPercent / 100 * (calculatePlan1 inputs).portfolioValue ∧
      (calculatePlan2 inputs).epigGains =
        inputs.borrowPercent / 100 * (calculatePlan1 inputs).gains -
          (calculatePlan2 inputs).cumulativeInterest := by
  have hE : (calculatePlan2 inputs).epigValue =
      inputs.borrowPercent / 100 * (calculatePlan1 inputs).portfolioValue := by
    show (plan2Loop inputs inputs.timeHorizon.toNat).epigValue =
      inputs.borrowPercent / 100 * (plan1Loop inputs inputs.timeHorizon.toNat).portfolioValue
    rw [plan2Loop_epigValue, plan1Loop_portfolioValue]
    ring
  have hG : (calculatePlan2 inputs).epigGains =
      (calculatePlan2 inputs).epigValue - (calculatePlan2 inputs).cumulativeInterest -
        inputs.annualContribution * (inputs.timeHorizon : ℚ) *
          (inputs.borrowPercent / 100) := rfl
  have hP : (calculatePlan1 inputs).gains =
      (calculatePlan1 inputs).portfolioValue -
        inputs.annualContribution * (inputs.timeHorizon : ℚ) := rfl
  refine ⟨hE, ?_⟩
  rw [hG, hE, hP]
  ring

/-! ## Year loops: trajectory and closed forms -/

theorem plan1Loop_yearlyData_length (inputs : Inputs) (k : Nat) :
    (plan1Loop inputs k).yearlyData.length = k := by
  induction k with
  | zero => simp [plan1Loop]
  | succ k ih => simp [plan1Loop, plan1Body, ih]

theorem plan1Loop_years (inputs : Inputs) (k : Nat) :
    (plan1Loop inputs k).yearlyData.map Plan1Year.year =
      (List.range k).map (fun j => ((j + 1 : Nat) : Int)) := by
  induction k with
  | zero => simp [plan1Loop]
  | succ k ih =>
    simp only [plan1Loop, plan1Body, List.map_append, ih, List.range_succ, List.map_cons,
      List.map_nil]

theorem plan2Loop_years (inputs : Inputs) (k : Nat) :
    (plan2Loop inputs k).yearlyData.map Plan2Year.year =
      (List.range k).map (fun j => ((j + 1 : Nat) : Int)) := by
  induction k with
  | zero => simp [plan2Loop]
  | succ k ih =>
    simp only [plan2Loop, plan2Body, List.map_append, ih, List.range_succ, List.map_cons,
      List.map_nil]

theorem plan1Loop_last (inputs : Inputs) (k : Nat) (r : Plan1Year)
    (h : (plan1Loop inputs k).yearlyData.getLast? = some r) :
    r.portfolioValue = (plan1Loop inputs k).portfolioValue := by
  cases k with
  | zero => simp [plan1Loop] at h
  | succ k =>
    simp only [plan1Loop, plan1Body, List.getLast?_concat, Option.some.injEq] at h
    subst h
    rfl

theorem plan2Loop_last (inputs : Inputs) (k : Nat) (r : Plan2Year)
    (h : (plan2Loop inputs k).yearlyData.getLast? = some r) :
    r.loanBalance = (plan2Loop inputs k).loanBalance ∧
      r.cumulativeInterest = (plan2Loop inputs k).cumulativeInterest ∧
      r.epigValue = (plan2Loop inputs k).epigValue ∧
      r.cashValue = (plan2Loop inputs k).cashValue := by
  cases k with
  | zero => simp [plan2Loop] at h
  | succ k =>
    simp only [plan2Loop, plan2Body, List.getLast?_concat, Option.some.injEq] at h
    subst h
    exact ⟨rfl, rfl, rfl, rfl⟩

/-- C25: for every input with integer timeHorizon n ≥ 0, calculatePlan1 and
calculatePlan2 each return a yearlyData of exactly n records whose year fields are
1, 2, ..., n in order, and the last record (there is one as soon as n ≥ 1) holds the
terminal balances: portfolioValue for Plan 1; loanBalance, cumulativeInterest, epigValue
and cashValue for Plan 2. -/
theorem yearlyData_shape (inputs : Inputs) (hn : 0 ≤ inputs.timeHorizon) :
    (((calculatePlan1 inputs).yearlyData.length : Int) = inputs.timeHorizon ∧
      (calculatePlan1 inputs).yearlyData.map Plan1Year.year =
        (List.range inputs.timeHorizon.toNat).map (fun j => ((j + 1 : Nat) : Int)) ∧
      ∀ r : Plan1Year, (calculatePlan1 inputs).yearlyData.getLast? = some r →
        r.portfolioValue = (calculatePlan1 inputs).portfolioValue) ∧
    (((calculatePlan2 inputs).yearlyData.length : Int) = inputs.timeHorizon ∧
      (calculatePlan2 inputs).yearlyData.map Plan2Year.year =
        (List.range inputs.timeHorizon.toNat).map (fun j => ((j + 1 : Nat) : Int)) ∧
      ∀ r : Plan2Year, (calculatePlan2 inputs).yearlyData.getLast? = some r →
        r.loanBalance = (calculatePlan2 inputs).loanBalance ∧
          r.cumulativeInterest = (calculatePlan2 inputs).cumulativeInterest ∧
          r.epigValue = (calculatePlan2 inputs).epigValue ∧
          r.cashValue = (calculatePlan2 inputs).cashValue) := by
  refine ⟨⟨?_, plan1Loop_years inputs _, plan1Loop_last inputs _⟩,
    ⟨?_, plan2Loop_years inputs _, plan2Loop_last inputs _⟩⟩
  · show (((plan1Loop inputs inputs.timeHorizon.toNat).yearlyData.length : Nat) : Int) = _
    rw [plan1Loop_yearlyData_length, Int.toNat_of_nonneg hn]
  · show (((plan2Loop inputs inputs.timeHorizon.toNat).yearlyData.length : Nat) : Int) = _
    rw [plan2Loop_yearlyData_length, Int.toNat_of_nonneg hn]

/-- Witness for C25 at the documented defaults: ten records, years 1 to 10. -/
theorem yearlyData_shape_witness :
    (0 : Int) ≤ defaultInputs.timeHorizon ∧
      ((calculatePlan1 defaultInputs).yearlyData.length : Int) = defaultInputs.timeHorizon ∧
      ((calculatePlan2 defaultInputs).yearlyData.length : Int) = defaultInputs.timeHorizon ∧
      (calculatePlan2 defaultInputs).yearlyData.map Plan2Year.year =
        (List.range defaultInputs.timeHorizon.toNat).map (fun j => ((j + 1 : Nat) : Int)) :=
  ⟨by decide, (yearlyData_shape defaultInputs (by decide)).1.1,
    (yearlyData_shape defaultInputs (by decide)).2.1,
    (yearlyData_shape defaultInputs (by decide)).2.2.1⟩

theorem sum_pow_succ_eq (g : ℚ) (n : Nat) :
    Finset.sum (Finset.range n) (fun i => g ^ (i + 1)) =
      g * Finset.sum (Finset.range n) (fun i => g ^ i) := by
  rw [Finset.mul_sum]
  apply Finset.sum_congr rfl
  intro i _
  rw [pow_succ]
  ring

theorem growthSum_start (timing : String) (g : ℚ) (n : Nat) (h : timing = "start") :
    growthSum timing g n = Finset.sum (Finset.range n) (fun i => g ^ (i + 1)) := by
  induction n with
  | zero => simp [growthSum]
  | succ k ih =>
    rw [growthSum, if_pos h, ih, Finset.sum_range_succ', sum_pow_succ_eq g k]
    have : Finset.sum (Finset.range k) (fun i => g ^ (i + 1 + 1)) =
        g * (g * Finset.sum (Finset.range k) (fun i => g ^ i)) := by
      rw [← sum_pow_succ_eq g k, Finset.mul_sum]
      apply Finset.sum_congr rfl
      intro i _
      rw [pow_succ g (i + 1)]
      ring
    rw [this]
    ring

theorem growthSum_end (timing : String) (g : ℚ) (n : Nat) (h : ¬ timing = "start") :
    growthSum timing g n = Finset.sum (Finset.range n) (fun i => g ^ i) := by
  induction n with
  | zero => simp [growthSum]
  | succ k ih =>
    rw [growthSum, if_neg h, ih, Finset.sum_range_succ', sum_pow_succ_eq g k]
    ring

theorem growthSum_closed (timing : String) (d g : ℚ) (n : Nat) :
    d * growthSum timing g n =
      if timing = "start" then geometricSumStart d g n else geometricSumEnd d g n := by
  split_ifs with h
  · rw [growthSum_start timing g n h, geometricSumStart]
  · rw [growthSum_end timing g n h, geometricSumEnd]

/-- C26: the year loops equal their geometric-sum closed forms.  With n the number of
funding years and g = 1 + rate/100, END timing yields d * (g^0 + ... + g^(n-1)) and
START timing yields d * (g^1 + ... + g^n), for calculatePlan1's portfolioValue
(d = annualContribution, rate = directCAGR), calculatePlan2's cashValue
(d = annualContribution, rate = cvGrowthRate) and calculatePlan2's epigValue
(d = annualContribution*borrowPercent/100, rate = directCAGR); so each START value is
g times the corresponding END value. -/
theorem year_loops_closed_form (inputs : Inputs) :
    ((calculatePlan1 inputs).portfolioValue =
        (if inputs.contributionTiming = "start" then
          geometricSumStart inputs.annualContribution (1 + inputs.directCAGR / 100)
            inputs.timeHorizon.toNat
        else
          geometricSumEnd inputs.annualContribution (1 + inputs.directCAGR / 100)
            inputs.timeHorizon.toNat) ∧
      (calculatePlan2 inputs).cashValue =
        (if inputs.contributionTiming = "start" then
          geometricSumStart inputs.annualContribution (1 + inputs.cvGrowthRate / 100)
            inputs.timeHorizon.toNat
        else
          geometricSumEnd inputs.annualContribution (1 + inputs.cvGrowthRate / 100)
            inputs.timeHorizon.toNat) ∧
      (calculatePlan2 inputs).epigValue =
        (if inputs.contributionTiming = "start" then
          geometricSumStart (inputs.annualContribution * inputs.borrowPercent / 100)
            (1 + inputs.directCAGR / 100) inputs.timeHorizon.toNat
        else
          geometricSumEnd (inputs.annualContribution * inputs.borrowPercent / 100)
            (1 + inputs.directCAGR / 100) inputs.timeHorizon.toNat)) ∧
    (∀ (d g : ℚ) (n : Nat), geometricSumStart d g n = g * geometricSumEnd d g n) ∧
    ((calculatePlan1 { inputs with contributionTiming := "start" }).portfolioValue =
        (1 + inputs.directCAGR / 100) *
          (calculatePlan1 { inputs with contributionTiming := "end" }).portfolioValue ∧
      (calculatePlan2 { inputs with contributionTiming := "start" }).cashValue =
        (1 + inputs.cvGrowthRate / 100) *
          (calculatePlan2 { inputs with contributionTiming := "end" }).cashValue ∧
      (calculatePlan2 { inputs with contributionTiming := "start" }).epigValue =
        (1 + inputs.directCAGR / 100) *
          (calculatePlan2 { inputs with contributionTiming := "end" }).epigValue) := by
  have hP : ∀ i : Inputs, (calculatePlan1 i).portfolioValue =
      i.annualContribution *
        growthSum i.contributionTiming (1 + i.directCAGR / 100) i.timeHorizon.toNat :=
    fun i => plan1Loop_portfolioValue i _
  have hC : ∀ i : Inputs, (calculatePlan2 i).cashValue =
      i.annualContribution *
        growthSum i.contributionTiming (1 + i.cvGrowthRate / 100) i.timeHorizon.toNat :=
    fun i => plan2Loop_cashValue i _
  have hE : ∀ i : Inputs, (calculatePlan2 i).epigValue =
      i.annualContribution * (i.borrowPercent / 100) *
        growthSum i.contributionTiming (1 + i.directCAGR / 100) i.timeHorizon.toNat :=
    fun i => plan2Loop_epigValue i _
  have hne : ¬ ("end" : String) = "start" := by decide
  refine ⟨⟨?_, ?_, ?_⟩, ?_, ⟨?_, ?_, ?_⟩⟩
  · rw [hP, growthSum_closed]
  · rw [hC, growthSum_closed]
  · rw [hE, growthSum_closed, mul_div_assoc]
  · intro d g n
    rw [geometricSumStart, geometricSumEnd, sum_pow_succ_eq]
    ring
  · rw [hP, hP]
    simp only []
    rw [growthSum_start _ _ _ rfl, growthSum_end _ _ _ hne, sum_pow_succ_eq]
    ring
  · rw [hC, hC]
    simp only []
    rw [growthSum_start _ _ _ rfl, growthSum_end _ _ _ hne, sum_pow_succ_eq]
    ring
  · rw [hE, hE]
    simp only []
    rw [growthSum_start _ _ _ rfl, growthSum_end _ _ _ hne, sum_pow_succ_eq]
    ring

end Freedom
